import Mathlib

/-!
CloudIaC: task/step predicates and the runner's workspace and script generation

A shallow embedding of `portal/models/task.go`, `portal/models/variables.go` and
`runner/task.go`.

* Go strings are Lean `String`s; the few `strings`/`path/filepath` functions the
  code calls are given as functions on character lists.
* `text/template` is embedded as a small engine: a template source text is lexed
  into text and actions (with the `{{-` / `-}}` trim markers), parsed into a
  tree and executed against a value.  The templates of `runner/task.go` are kept
  as their source text.
* The file system and the container runtime are an explicit `World` that is
  passed through `initWorkspace`, `genStepScript` and `Run`; every call that
  reaches the operating system is appended to `World.trace`.
-/

namespace CloudIaC

/-! ## Go `strings` -/

/-- Go `strings.HasPrefix(s, p)`. -/
def HasPrefix (s p : String) : Bool := p.data.isPrefixOf s.data

/-- Go `unicode.IsSpace`. -/
def isSpace (c : Char) : Bool :=
  let n := c.toNat
  n == 0x20 || (0x09 ≤ n && n ≤ 0x0d) || n == 0x85 || n == 0xa0 || n == 0x1680
    || (0x2000 ≤ n && n ≤ 0x200a) || n == 0x2028 || n == 0x2029 || n == 0x202f
    || n == 0x205f || n == 0x3000

/-- Go `strings.TrimSpace`. -/
def TrimSpace (s : String) : String :=
  String.mk ((s.data.dropWhile isSpace).reverse.dropWhile isSpace).reverse

/-- Split a character list at every occurrence of the separator character
(Go `strings.Split` with a one-character separator): the result always has one
more element than there are separators. -/
def splitOn (sep : Char) : List Char → List (List Char)
  | [] => [[]]
  | c :: cs =>
    if c = sep then [] :: splitOn sep cs
    else
      match splitOn sep cs with
      | [] => [[c]]
      | w :: ws => (c :: w) :: ws

/-! ## Go `text/template` -/

/-- A value handed to a template. -/
inductive Value where
  | str (s : String)
  | bool (b : Bool)
  | int (n : Int)
  | list (xs : List Value)
  | map (kv : List (String × Value))
  | struct (fields : List (String × Value))
  | missing

/-- An argument of an action: a field chain on dot, a variable, or `not`. -/
inductive Expr where
  | field (path : List String)
  | var (name : String)
  | not (e : Expr)
deriving DecidableEq, Repr

/-- A template tree. -/
inductive Node where
  | text (s : String)
  | print (e : Expr)
  | ifThen (c : Expr) (body : List Node)
  | range (idx : Option String) (elem : Option String) (e : Expr) (body : List Node)
deriving Repr

/-- A piece of template source: literal text, or what stands between the
delimiters of an action. -/
inductive Raw where
  | text (s : List Char)
  | action (s : List Char)
deriving DecidableEq, Repr

/-- The white space a trim marker removes: space, tab, carriage return, newline. -/
def isTrimSpace (c : Char) : Bool := c = ' ' || c = '\t' || c = '\r' || c = '\n'

/-- Cut the source at the action delimiters.  The flag says whether the scan is
inside an action, `acc` holds the current piece reversed.  An action left open
at the end of the source is an error. -/
def lexRaw : Bool → List Char → List Char → Option (List Raw)
  | false, acc, '\x7b' :: '\x7b' :: rest =>
    (lexRaw true [] rest).map fun rs => Raw.text acc.reverse :: rs
  | true, acc, '\x7d' :: '\x7d' :: rest =>
    (lexRaw false [] rest).map fun rs => Raw.action acc.reverse :: rs
  | inAction, acc, c :: rest => lexRaw inAction (c :: acc) rest
  | false, acc, [] => some [Raw.text acc.reverse]
  | true, _, [] => none

/-- An action opens with a left trim marker: a dash followed by white space. -/
def hasLeftTrimMarker : List Char → Bool
  | '-' :: c :: _ => isTrimSpace c
  | _ => false

/-- An action closes with a right trim marker: white space followed by a dash. -/
def hasRightTrimMarker (s : List Char) : Bool :=
  match s.reverse with
  | '-' :: c :: _ => isTrimSpace c
  | _ => false

/-- The action without its trim markers. -/
def stripTrimMarkers (s : List Char) : List Char :=
  let s1 := if hasLeftTrimMarker s then s.drop 2 else s
  if hasRightTrimMarker s then (s1.reverse.drop 2).reverse else s1

/-- Does the next piece open with a left trim marker? -/
def nextTrimsLeft : List Raw → Bool
  | Raw.action s :: _ => hasLeftTrimMarker s
  | _ => false

/-- Apply the trim markers: text after an action closed with a right marker
loses its leading white space, text before an action opened with a left marker
loses its trailing white space.  The flag says whether the previous action
closed with a right marker. -/
def trimRaw : Bool → List Raw → List Raw
  | _, [] => []
  | trimLead, Raw.text s :: rest =>
    let s1 := if trimLead then s.dropWhile isTrimSpace else s
    let s2 := if nextTrimsLeft rest then (s1.reverse.dropWhile isTrimSpace).reverse else s1
    Raw.text s2 :: trimRaw false rest
  | _, Raw.action s :: rest =>
    Raw.action (stripTrimMarkers s) :: trimRaw (hasRightTrimMarker s) rest

/-- The words of an action: maximal runs of characters other than white space. -/
def words (s : List Char) : List (List Char) :=
  ((splitOn ' ' (s.map fun c => if isTrimSpace c then ' ' else c)).filter
    fun w => !w.isEmpty)

/-- Parse the argument of an action from its words. -/
def parseExpr : List (List Char) → Option Expr
  | [] => none
  | w :: ws =>
    if w = "not".data then (parseExpr ws).map Expr.not
    else if !ws.isEmpty then none
    else
      match w with
      | ['.'] => some (Expr.field [])
      | '.' :: cs => some (Expr.field ((splitOn '.' cs).map String.mk))
      | '$' :: _ => some (Expr.var (String.mk w))
      | _ => none

/-- A lexed action. -/
inductive Item where
  | text (s : String)
  | print (e : Expr)
  | ifStart (c : Expr)
  | rangeStart (idx : Option String) (elem : Option String) (e : Expr)
  | endTok
deriving DecidableEq, Repr

/-- The variables declared by a `range` header (what stands before `:=`,
separated by commas): one variable takes the element, two take index and
element. -/
def rangeVars (decl : List (List Char)) : Option (Option String × Option String) :=
  match words (decl.flatten.map fun c => if c = ',' then ' ' else c) with
  | [] => some (none, none)
  | [v] => some (none, some (String.mk v))
  | [i, v] => some (some (String.mk i), some (String.mk v))
  | _ => none

/-- Parse one action. -/
def parseAction (s : List Char) : Option Item :=
  match words s with
  | [] => none
  | w :: ws =>
    if w = "end".data then (if ws.isEmpty then some Item.endTok else none)
    else if w = "if".data then (parseExpr ws).map Item.ifStart
    else if w = "range".data then
      if ":=".data ∈ ws then do
        let (i, v) ← rangeVars (ws.takeWhile fun x => x ≠ ":=".data)
        let e ← parseExpr ((ws.dropWhile fun x => x ≠ ":=".data).drop 1)
        some (Item.rangeStart i v e)
      else (parseExpr ws).map (Item.rangeStart none none)
    else if w = "else".data ∨ w = "with".data ∨ w = "define".data
        ∨ w = "template".data ∨ w = "block".data then none
    else (parseExpr (w :: ws)).map Item.print

/-- Turn the trimmed pieces into items; empty text is dropped. -/
def toItems : List Raw → Option (List Item)
  | [] => some []
  | Raw.text [] :: rest => toItems rest
  | Raw.text s :: rest => (toItems rest).map fun is => Item.text (String.mk s) :: is
  | Raw.action s :: rest => do
    let i ← parseAction s
    let is ← toItems rest
    some (i :: is)

/-- Build the tree.  The result is the nodes up to the closing `end` (or the end
of the input), whether an `end` closed them, and the items left. -/
def parseNodes : Nat → List Item → Option (List Node × Bool × List Item)
  | 0, _ => none
  | _ + 1, [] => some ([], false, [])
  | _ + 1, Item.endTok :: rest => some ([], true, rest)
  | n + 1, Item.text s :: rest => do
    let (ns, closed, r) ← parseNodes n rest
    some (Node.text s :: ns, closed, r)
  | n + 1, Item.print e :: rest => do
    let (ns, closed, r) ← parseNodes n rest
    some (Node.print e :: ns, closed, r)
  | n + 1, Item.ifStart c :: rest => do
    let (body, bodyClosed, r) ← parseNodes n rest
    if !bodyClosed then none
    let (ns, closed, r2) ← parseNodes n r
    some (Node.ifThen c body :: ns, closed, r2)
  | n + 1, Item.rangeStart i v e :: rest => do
    let (body, bodyClosed, r) ← parseNodes n rest
    if !bodyClosed then none
    let (ns, closed, r2) ← parseNodes n r
    some (Node.range i v e body :: ns, closed, r2)

/-- Go `template.New("").Parse(src)`: `none` when the source does not parse. -/
def parseTpl (src : String) : Option (List Node) := do
  let raws ← lexRaw false [] src.data
  let items ← toItems (trimRaw false raws)
  let (ns, closed, _) ← parseNodes (items.length + 1) items
  if closed then none
  some ns

/-! ### Execution -/

deriving instance DecidableEq for Except

mutual
/-- Go `fmt.Sprint` of a value, as `text/template` prints it. -/
def Value.print : Value → String
  | .str s => s
  | .bool b => if b then "true" else "false"
  | .int n => toString n
  | .list xs => "[" ++ Value.printList xs ++ "]"
  | .map kv => "map[" ++ Value.printEntries kv ++ "]"
  | .struct fs => "\x7b" ++ Value.printFields fs ++ "\x7d"
  | .missing => "<no value>"
/-- The elements of a list, separated by blanks. -/
def Value.printList : List Value → String
  | [] => ""
  | [x] => x.print
  | x :: y :: xs => x.print ++ " " ++ Value.printList (y :: xs)
/-- The entries of a map as `key:value`, separated by blanks. -/
def Value.printEntries : List (String × Value) → String
  | [] => ""
  | [(k, x)] => k ++ ":" ++ x.print
  | (k, x) :: y :: xs => k ++ ":" ++ x.print ++ " " ++ Value.printEntries (y :: xs)
/-- The field values of a struct, separated by blanks. -/
def Value.printFields : List (String × Value) → String
  | [] => ""
  | [(_, x)] => x.print
  | (_, x) :: y :: xs => x.print ++ " " ++ Value.printFields (y :: xs)
end

/-- Go `template.IsTrue`: the truth of a value in `if` and `not`. -/
def Value.truth : Value → Bool
  | .str s => s ≠ ""
  | .bool b => b
  | .int n => n ≠ 0
  | .list xs => !xs.isEmpty
  | .map kv => !kv.isEmpty
  | .struct _ => true
  | .missing => false

/-- Evaluate `.name` on a value.  A key that a map does not hold gives the
missing value (the default `missingkey` option); a field that a struct does not
have, or a field of anything else, is an execution error. -/
def Value.getField (v : Value) (name : String) : Except String Value :=
  match v with
  | .map kv => .ok ((kv.lookup name).getD .missing)
  | .struct fs =>
    match fs.lookup name with
    | some x => .ok x
    | none => .error ("can't evaluate field " ++ name)
  | .missing => .error ("nil pointer evaluating interface." ++ name)
  | _ => .error ("can't evaluate field " ++ name)

/-- Evaluate a field chain. -/
def evalPath : Value → List String → Except String Value
  | v, [] => .ok v
  | v, f :: fs => do
    let x ← v.getField f
    evalPath x fs

/-- What an action sees: dot and the variables in scope. -/
structure Scope where
  dot : Value
  vars : List (String × Value)

/-- Evaluate the argument of an action. -/
def evalExpr (sc : Scope) : Expr → Except String Value
  | .field path => evalPath sc.dot path
  | .var x =>
    match sc.vars.lookup x with
    | some v => .ok v
    | none => .error ("undefined variable: " ++ x)
  | .not e => do
    let v ← evalExpr sc e
    .ok (.bool (!v.truth))

/-- Bind a variable when the `range` header declares it. -/
def bindVar (name : Option String) (v : Value) (vars : List (String × Value)) :
    List (String × Value) :=
  match name with
  | some x => (x, v) :: vars
  | none => vars

/-- The body of a `range`, once per element, outputs concatenated. -/
def rangeLoop (body : Value → Value → Except String String) :
    Nat → List Value → Except String String
  | _, [] => .ok ""
  | i, x :: xs => do
    let a ← body (.int i) x
    let b ← rangeLoop body (i + 1) xs
    .ok (a ++ b)

/-- The body of a `range` over a map, once per entry in the stored order
(association lists are kept in key order, the order in which templates visit a
map). -/
def rangeEntries (body : Value → Value → Except String String) :
    List (String × Value) → Except String String
  | [] => .ok ""
  | (k, x) :: xs => do
    let a ← body (.str k) x
    let b ← rangeEntries body xs
    .ok (a ++ b)

mutual
/-- Execute one node. -/
def execNode (sc : Scope) : Node → Except String String
  | .text s => .ok s
  | .print e => do
    let v ← evalExpr sc e
    .ok v.print
  | .ifThen c body => do
    let v ← evalExpr sc c
    if v.truth then execNodes sc body else .ok ""
  | .range idx elem e body => do
    let v ← evalExpr sc e
    let step := fun (i x : Value) =>
      execNodes ⟨x, bindVar elem x (bindVar idx i sc.vars)⟩ body
    match v with
    | .list xs => rangeLoop step 0 xs
    | .map kv => rangeEntries step kv
    | .missing => .ok ""
    | _ => .error "range can't iterate over value"
/-- Execute a node list, outputs concatenated. -/
def execNodes (sc : Scope) : List Node → Except String String
  | [] => .ok ""
  | n :: ns => do
    let a ← execNode sc n
    let b ← execNodes sc ns
    .ok (a ++ b)
end

/-- A compiled template as `template.Must(template.New("").Parse(src))` leaves
it (`none` stands for the panic of `Must` on a source that does not parse). -/
abbrev Template := Option (List Node)

/-- Go `tpl.Execute(buffer, data)` followed by `buffer.String()`. -/
def Template.execute (tpl : Template) (data : Value) : Except String String :=
  match tpl with
  | none => .error "template: parse error"
  | some ns => execNodes ⟨data, []⟩ ns

/-! ## Go `path/filepath` (Unix) -/

/-- One step of `filepath.Clean` on the segments kept so far (innermost first):
`..` removes the segment before it unless that is itself `..`; at the start of
a rooted path it is dropped, at the start of a relative path it is kept. -/
def cleanStep (rooted : Bool) (stack : List (List Char)) (seg : List Char) :
    List (List Char) :=
  if seg = "..".data then
    match stack with
    | [] => if rooted then [] else [seg]
    | top :: below => if top = "..".data then seg :: stack else below
  else seg :: stack

/-- Go `filepath.Clean`: the shortest equivalent path by lexical processing. -/
def Clean (path : List Char) : List Char :=
  let rooted := path.head? = some '/'
  let segs := (splitOn '/' path).filter fun s => !s.isEmpty && s ≠ ".".data
  let kept := (segs.foldl (cleanStep rooted) []).reverse
  let body := List.intercalate "/".data kept
  if rooted then '/' :: body
  else if body.isEmpty then ".".data else body

/-- Go `filepath.Join`: the non-empty elements joined by a slash and cleaned; the
empty string when there is nothing to join. -/
def Join (elems : List String) : String :=
  match (elems.filter fun e => e ≠ "").map String.data with
  | [] => ""
  | es => String.mk (Clean (List.intercalate "/".data es))

/-- Go `filepath.SplitList`: the elements of a path list, separated by colons;
the empty list for the empty string. -/
def SplitList (path : String) : List String :=
  if path = "" then [] else (splitOn ':' path.data).map String.mk

/-- Go `errors.Wrap(err, message)`, errors being their message. -/
def Wrap (err message : String) : String := message ++ ": " ++ err

/-! ## `portal/models` -/

/-- Modelled from the spec: the step status constants of package `common`, which
is not among the sources; the values are those of the `gorm` enumeration of
`TaskStep.Status`. -/
def TaskStepPending : String := "pending"
/-- Modelled from the spec: see `TaskStepPending`. -/
def TaskStepApproving : String := "approving"
/-- Modelled from the spec: see `TaskStepPending`. -/
def TaskStepRejected : String := "rejected"
/-- Modelled from the spec: see `TaskStepPending`. -/
def TaskStepRunning : String := "running"
/-- Modelled from the spec: see `TaskStepPending`. -/
def TaskStepFailed : String := "failed"
/-- Modelled from the spec: see `TaskStepPending`. -/
def TaskStepComplete : String := "complete"
/-- Modelled from the spec: see `TaskStepPending`. -/
def TaskStepTimeout : String := "timeout"

/-- Modelled from the spec: the step type constants of package `common`, which is
not among the sources; the values are those of the `gorm` enumeration of
`TaskStepBody.Type`, and `collect` for the state collection step. -/
def TaskStepInit : String := "init"
/-- Modelled from the spec: see `TaskStepInit`. -/
def TaskStepPlan : String := "plan"
/-- Modelled from the spec: see `TaskStepInit`. -/
def TaskStepApply : String := "apply"
/-- Modelled from the spec: see `TaskStepInit`. -/
def TaskStepDestroy : String := "destroy"
/-- Modelled from the spec: see `TaskStepInit`. -/
def TaskStepPlay : String := "play"
/-- Modelled from the spec: see `TaskStepInit`. -/
def TaskStepCommand : String := "command"
/-- Modelled from the spec: see `TaskStepInit`. -/
def TaskStepCollect : String := "collect"
/-- Modelled from the spec: see `TaskStepInit`. -/
def TaskStepTfParse : String := "tfparse"
/-- Modelled from the spec: see `TaskStepInit`. -/
def TaskStepTfScan : String := "tfscan"
/-- Modelled from the spec: see `TaskStepInit`. -/
def TaskStepScanInit : String := "scaninit"

/-- Modelled from the spec: `utils.StrInArray(s, arr...)`, which is not among the
sources: whether the string is one of the listed ones. -/
def StrInArray (s : String) (arr : List String) : Bool := arr.contains s

/-- The fields of `TaskStep` that its predicates read. -/
structure TaskStep where
  Typ : String
  Index : Int
  Status : String
  ApproverId : String

/-- `TaskStep.IsApproved`. -/
def TaskStep.IsApproved (s : TaskStep) : Bool :=
  if s.Status = TaskStepRejected then false
  else if StrInArray s.Typ [TaskStepApply, TaskStepDestroy] && s.ApproverId.length = 0 then false
  else true

/-- `TaskStep.IsStarted`. -/
def TaskStep.IsStarted (s : TaskStep) : Bool :=
  !StrInArray s.Status [TaskStepPending, TaskStepApproving]

/-- `TaskStep.IsExited`. -/
def TaskStep.IsExited (s : TaskStep) : Bool :=
  StrInArray s.Status [TaskStepRejected, TaskStepComplete, TaskStepFailed, TaskStepTimeout]

/-- `TaskStep.IsRejected`. -/
def TaskStep.IsRejected (s : TaskStep) : Bool := s.Status = TaskStepRejected

/-- Modelled from the spec: the task status constants of package `common`, which
is not among the sources; the values are the status names of the data model
(pending, running, approving, rejected, failed, complete). -/
def TaskPending : String := "pending"
/-- Modelled from the spec: see `TaskPending`. -/
def TaskRunning : String := "running"
/-- Modelled from the spec: see `TaskPending`. -/
def TaskApproving : String := "approving"
/-- Modelled from the spec: see `TaskPending`. -/
def TaskRejected : String := "rejected"
/-- Modelled from the spec: see `TaskPending`. -/
def TaskFailed : String := "failed"
/-- Modelled from the spec: see `TaskPending`. -/
def TaskComplete : String := "complete"

/-- Modelled from the spec: the task type constants of package `common`, which is
not among the sources; the values are the run types of the data model (plan,
apply, destroy, scan, parse). -/
def TaskTypePlan : String := "plan"
/-- Modelled from the spec: see `TaskTypePlan`. -/
def TaskTypeApply : String := "apply"
/-- Modelled from the spec: see `TaskTypePlan`. -/
def TaskTypeDestroy : String := "destroy"
/-- Modelled from the spec: see `TaskTypePlan`. -/
def TaskTypeScan : String := "scan"
/-- Modelled from the spec: see `TaskTypePlan`. -/
def TaskTypeParse : String := "parse"

/-- Modelled from the spec: `utils.InArrayStr(arr, s)`, which is not among the
sources: whether the array holds the string. -/
def InArrayStr (arr : List String) (s : String) : Bool := arr.contains s

/-- The fields of `BaseTask` that the methods in `task.go` read (the type is
declared outside the sources). -/
structure BaseTask where
  Id : String
  RunnerId : String
  StepTimeout : Int
  Typ : String
  Status : String

/-- `BaseTask.IsStartedStatus`: a task in status approving counts as started. -/
def BaseTask.IsStartedStatus (_ : BaseTask) (status : String) : Bool :=
  !InArrayStr [TaskPending] status

/-- `BaseTask.IsExitedStatus`. -/
def BaseTask.IsExitedStatus (_ : BaseTask) (status : String) : Bool :=
  InArrayStr [TaskFailed, TaskRejected, TaskComplete] status

/-- `BaseTask.Exited`. -/
def BaseTask.Exited (t : BaseTask) : Bool := t.IsExitedStatus t.Status

/-- `BaseTask.Started`. -/
def BaseTask.Started (t : BaseTask) : Bool := t.IsStartedStatus t.Status

/-- `BaseTask.IsEffectTaskType`: whether the task type changes real data. -/
def BaseTask.IsEffectTaskType (_ : BaseTask) (typ : String) : Bool :=
  StrInArray typ [TaskTypeApply, TaskTypeDestroy]

/-- `BaseTask.IsEffectTask`. -/
def BaseTask.IsEffectTask (t : BaseTask) : Bool := t.IsEffectTaskType t.Typ

/-- `VariableBody` of `variables.go`. -/
structure VariableBody where
  Scope : String
  Typ : String
  Name : String
  Value : String
  Sensitive : Bool
  Description : String
deriving DecidableEq

/-- `TaskResult`: the resource counts (absent when there is no change data) and
the outputs. -/
structure TaskResult where
  ResAdded : Option Int
  ResChanged : Option Int
  ResDestroyed : Option Int
  Outputs : List (String × Value)

/-- `TaskExtra`. -/
structure TaskExtra where
  Source : String
  TransitionId : String

/-- `Task` of `portal/models`: the deployment task. -/
structure Task extends BaseTask where
  OrgId : String
  ProjectId : String
  TplId : String
  EnvId : String
  Name : String
  CreatorId : String
  RepoAddr : String
  Revision : String
  CommitId : String
  Workdir : String
  Playbook : String
  TfVarsFile : String
  TfVersion : String
  PlayVarsFile : String
  Targets : List String
  Variables : List VariableBody
  StatePath : String
  Extra : TaskExtra
  KeyId : String
  AutoApprove : Bool
  StopOnViolation : Bool
  Result : TaskResult
  RetryNumber : Int
  RetryDelay : Int
  RetryAble : Bool

/-- The loop of `Task.HideSensitiveVariable` over the variables, in their order:
the value of a variable flagged sensitive is set to the empty string. -/
def hideSensitive : List VariableBody → List VariableBody
  | [] => []
  | v :: rest => (if v.Sensitive then { v with Value := "" } else v) :: hideSensitive rest

/-- `Task.HideSensitiveVariable`: the task after the call. -/
def Task.HideSensitiveVariable (t : Task) : Task :=
  { t with Variables := hideSensitive t.Variables }

/-! ## `runner`: requests, constants and the outside world -/

/-- The state backend descriptor of a request (`RunTaskReq.StateStore`). -/
structure StateStore where
  Backend : String
  Address : String
  Scheme : String
  Path : String

/-- A policy of a request: identifier, metadata and rule text. -/
structure TaskPolicy where
  PolicyId : String
  Meta : Value
  Rego : String

/-- The environment descriptor of a request (`RunTaskReq.Env`).  Go maps are
association lists, visited in list order. -/
structure TaskEnv where
  Id : String
  Workdir : String
  TfVarsFile : String
  Playbook : String
  PlayVarsFile : String
  EnvironmentVars : List (String × String)
  TerraformVars : List (String × String)
  AnsibleVars : List (String × String)

/-- The fields of `RunTaskReq` that `runner/task.go` reads (the type is declared
outside the sources). -/
structure RunTaskReq where
  Env : TaskEnv
  TaskId : String
  Step : Int
  StepType : String
  StepArgs : List String
  DockerImage : String
  StateStore : StateStore
  RepoAddress : String
  RepoRevision : String
  Timeout : Int
  PrivateKey : String
  Policies : List TaskPolicy
  StopOnViolation : Bool

/-- The container command that `Run` builds. -/
structure Command where
  Image : String
  Env : List String
  Commands : List String
  Timeout : Int
  Workdir : String
  HostWorkdir : String
deriving DecidableEq

/-- The record written to the step information file. -/
structure CommittedTaskStep where
  EnvId : String
  TaskId : String
  Step : Int
  ContainerId : String

/-- What `runner/task.go` uses and the sources do not hold: the constants and
path helpers of package `runner`, the configuration, and the helpers of package
`utils` and of the encoding libraries. -/
structure Externals where
  CloudIacTfFile : String
  CloudIacPlayVars : String
  PoliciesDir : String
  TFPlanJsonFile : String
  TFStateJsonFile : String
  TerrascanJsonFile : String
  TerrascanResultFile : String
  TaskStepScriptName : String
  TaskStepLogName : String
  TaskStepInfoFileName : String
  ContainerWorkspace : String
  ContainerPluginCachePath : String
  ContainerAssetsDir : String
  AnsibleStateAnalysisName : String
  GetTaskWorkspace : String → String → String
  GetTaskStepDir : String → String → Int → String
  GetTaskStepDirName : Int → String
  DecryptSecretVar : String → Except String String
  IsTrueStr : String → Bool
  MustJSON : CommittedTaskStep → String
  jsonMarshal : Value → String
  yamlEncode : List (String × String) → Except String String
  consulAddress : String
  DefaultImage : String

/-- A call that reaches the operating system or the container runtime. -/
inductive Op where
  | stat (path : String)
  | mkdirAll (path : String) (perm : Nat)
  | writeFile (path : String) (data : String) (perm : Nat)
  | openFile (path : String) (perm : Nat)
  | write (path : String) (data : String)
  | start (cmd : Command)
deriving DecidableEq

/-- The world outside the program: the directories and files that exist, the
calls made so far, and what decides the outcome of a call: `fault` gives the
error of a failing call (from the calls made before it and the call itself) and
`cid` the container id that a start returns. -/
structure World where
  dirs : List String
  files : List (String × String)
  trace : List Op
  fault : List Op → Op → Option String
  cid : List Op → Command → String

/-- Record a call. -/
def World.log (w : World) (op : Op) : World := { w with trace := w.trace ++ [op] }

/-- The outcome of running a call: its error, if any. -/
def World.err (w : World) (op : Op) : Option String := w.fault w.trace op

/-- Replace the content of a file, creating it when it is not there. -/
def setFile (files : List (String × String)) (path data : String) : List (String × String) :=
  (path, data) :: files.filter fun f => f.1 ≠ path

/-- The path and all the directories above it, for the relative or rooted path
given by its segments. -/
def ancestors (path : String) : List String :=
  let segs := splitOn '/' path.data
  ((List.range segs.length).map fun n =>
    String.mk (List.intercalate "/".data (segs.take (n + 1)))).filter fun d => d ≠ ""

/-- Modelled from the spec: `PathExists` of package `runner`, which is not among
the sources: whether a file or directory exists at the path, an error when that
cannot be found out. -/
def PathExists (path : String) (w : World) : Except String Bool × World :=
  match w.err (.stat path) with
  | some e => (.error e, w.log (.stat path))
  | none => (.ok (w.dirs.contains path || w.files.any fun f => f.1 = path), w.log (.stat path))

/-- Go `os.MkdirAll`: create the directory and the directories above it. -/
def MkdirAll (path : String) (perm : Nat) (w : World) : Option String × World :=
  match w.err (.mkdirAll path perm) with
  | some e => (some e, w.log (.mkdirAll path perm))
  | none =>
    (none, { w.log (.mkdirAll path perm) with
      dirs := w.dirs ++ (ancestors path).filter fun d => !w.dirs.contains d })

/-- Go `os.WriteFile`: create or truncate the file and write the data. -/
def WriteFile (path data : String) (perm : Nat) (w : World) : Option String × World :=
  match w.err (.writeFile path data perm) with
  | some e => (some e, w.log (.writeFile path data perm))
  | none => (none, { w.log (.writeFile path data perm) with files := setFile w.files path data })

/-- Go `os.OpenFile(path, os.O_CREATE|os.O_WRONLY|os.O_TRUNC, perm)`: create or
truncate the file. -/
def OpenFile (path : String) (perm : Nat) (w : World) : Option String × World :=
  match w.err (.openFile path perm) with
  | some e => (some e, w.log (.openFile path perm))
  | none => (none, { w.log (.openFile path perm) with files := setFile w.files path "" })

/-- Write to a file opened by `OpenFile`. -/
def WriteString (path data : String) (w : World) : Option String × World :=
  match w.err (.write path data) with
  | some e => (some e, w.log (.write path data))
  | none => (none, { w.log (.write path data) with files := setFile w.files path data })

/-- `Command.Start`: hand the command to the container runtime; the result is
the container id and the error, if any. -/
def Command.Start (cmd : Command) (w : World) : (String × Option String) × World :=
  ((w.cid w.trace cmd, w.err (.start cmd)), w.log (.start cmd))

/-- Run the second action unless the first one failed. -/
def andThen (r : Option String × World) (k : World → Option String × World) :
    Option String × World :=
  match r with
  | (some e, w) => (some e, w)
  | (none, w) => k w

/-! ## `runner/task.go`: the templates -/

/-- The source of `iacTerraformTpl`. -/
def iacTerraformTplSrc : String := String.join [
  " terraform \x7b\n",
  "  backend \"\x7b\x7b.State.Backend\x7d\x7d\" \x7b\n",
  "    address = \"\x7b\x7b.State.Address\x7d\x7d\"\n",
  "    scheme  = \"\x7b\x7b.State.Scheme\x7d\x7d\"\n",
  "    path    = \"\x7b\x7b.State.Path\x7d\x7d\"\n",
  "    lock    = true\n",
  "    gzip    = false\n",
  "  \x7d\n",
  "\x7d\n",
  "\n",
  "locals \x7b\n",
  "\tcloudiac_ssh_user    = \"root\"\n",
  "\tcloudiac_private_key = \"\x7b\x7b.PrivateKeyPath\x7d\x7d\"\n",
  "\x7d\n"]

/-- The source of `initCommandTpl`. -/
def initCommandTplSrc : String := String.join [
  "#!/bin/sh\n",
  "git clone '\x7b\x7b.Req.RepoAddress\x7d\x7d' code && \\\n",
  "cd 'code/\x7b\x7b.Req.Env.Workdir\x7d\x7d' && \\\n",
  "git checkout -q '\x7b\x7b.Req.RepoRevision\x7d\x7d' && echo check out $(git rev-parse --short HEAD). && \\\n",
  "ln -sf \x7b\x7b.IacTfFile\x7d\x7d . && \\\n",
  "terraform init -input=false \x7b\x7b- range $arg := .Req.StepArgs \x7d\x7d \x7b\x7b$arg\x7d\x7d\x7b\x7b end \x7d\x7d\n"]

/-- The source of `planCommandTpl`. -/
def planCommandTplSrc : String := String.join [
  "#!/bin/sh\n",
  "cd 'code/\x7b\x7b.Req.Env.Workdir\x7d\x7d' && \\\n",
  "terraform plan -input=false -out=_cloudiac.tfplan \\\n",
  "\x7b\x7bif .TfVars\x7d\x7d-var-file=\x7b\x7b.TfVars\x7d\x7d\x7b\x7bend\x7d\x7d \\\n",
  "\x7b\x7b range $arg := .Req.StepArgs \x7d\x7d\x7b\x7b$arg\x7d\x7d \x7b\x7b end \x7d\x7d&& \\\n",
  "terraform show -no-color -json _cloudiac.tfplan >\x7b\x7b.TFPlanJsonFilePath\x7d\x7d\n"]

/-- The source of `applyCommandTpl`. -/
def applyCommandTplSrc : String := String.join [
  "#!/bin/sh\n",
  "cd 'code/\x7b\x7b.Req.Env.Workdir\x7d\x7d' && \\\n",
  "terraform apply -input=false -auto-approve \\\n",
  "\x7b\x7b range $arg := .Req.StepArgs\x7d\x7d\x7b\x7b$arg\x7d\x7d \x7b\x7b end \x7d\x7d_cloudiac.tfplan\n"]

/-- The source of `playCommandTpl`. -/
def playCommandTplSrc : String := String.join [
  "#!/bin/sh\n",
  "export ANSIBLE_HOST_KEY_CHECKING=\"False\"\n",
  "export ANSIBLE_TF_DIR=\".\"\n",
  "export ANSIBLE_NOCOWS=\"1\"\n",
  "\n",
  "cd 'code/\x7b\x7b.Req.Env.Workdir\x7d\x7d' && ansible-playbook \\\n",
  "--inventory \x7b\x7b.AnsibleStateAnalysis\x7d\x7d \\\n",
  "--user \"root\" \\\n",
  "--private-key \"\x7b\x7b.PrivateKeyPath\x7d\x7d\" \\\n",
  "--extra @\x7b\x7b.IacPlayVars\x7d\x7d \\\n",
  "\x7b\x7b if .Req.Env.PlayVarsFile -\x7d\x7d\n",
  "--extra @\x7b\x7b.Req.Env.PlayVarsFile\x7d\x7d \\\n",
  "\x7b\x7b end -\x7d\x7d\n",
  "\x7b\x7b range $arg := .Req.StepArgs \x7d\x7d\x7b\x7b$arg\x7d\x7d \x7b\x7b end \x7d\x7d \\\n",
  "\x7b\x7b.Req.Env.Playbook\x7d\x7d \n"]

/-- The source of `cmdCommandTpl`. -/
def cmdCommandTplSrc : String := String.join [
  "#!/bin/sh\n",
  "(test -d 'code/\x7b\x7b.Req.Env.Workdir\x7d\x7d' && cd 'code/\x7b\x7b.Req.Env.Workdir\x7d\x7d')\n",
  "\x7b\x7b range $index, $command := .Commands -\x7d\x7d\n",
  "\x7b\x7b$command\x7d\x7d && \\\n",
  "\x7b\x7b end -\x7d\x7d\n",
  "sleep 0\n"]

/-- The source of `collectCommandTpl`. -/
def collectCommandTplSrc : String := String.join [
  "# state collect command\n",
  "cd 'code/\x7b\x7b.Req.Env.Workdir\x7d\x7d' && \\\n",
  "terraform show -no-color -json >\x7b\x7b.TFStateJsonFilePath\x7d\x7d\n"]

/-- The source of `parseCommandTpl`. -/
def parseCommandTplSrc : String := String.join [
  "#!/bin/sh\n",
  "cd 'code/\x7b\x7b.Req.Env.Workdir\x7d\x7d' && terrascan scan --config-only  -d . -o json > \x7b\x7b.TerrascanJsonFile\x7d\x7d\n"]

/-- The source of `scanCommandTpl`. -/
def scanCommandTplSrc : String := String.join [
  "#!/bin/sh\n",
  "cd 'code/\x7b\x7b.Req.Env.Workdir\x7d\x7d' && \\\n",
  "mkdir -p \x7b\x7b.PoliciesDir\x7d\x7d && \\\n",
  "echo scanning policies && \\\n",
  "terrascan scan -p \x7b\x7b.PoliciesDir\x7d\x7d --show-passed --iac-type terraform -l debug -o json > \x7b\x7b.TerrascanResultFile\x7d\x7d\n",
  "\x7b\x7b if not .Req.StopOnViolation -\x7d\x7d RET=$? ; [ $RET -eq 3 ] && exit 0 || exit $RET \x7b\x7b end -\x7d\x7d\n"]

/-- `iacTerraformTpl`. -/
def iacTerraformTpl : Template := parseTpl iacTerraformTplSrc
/-- `initCommandTpl`. -/
def initCommandTpl : Template := parseTpl initCommandTplSrc
/-- `planCommandTpl`. -/
def planCommandTpl : Template := parseTpl planCommandTplSrc
/-- `applyCommandTpl`. -/
def applyCommandTpl : Template := parseTpl applyCommandTplSrc
/-- `playCommandTpl`. -/
def playCommandTpl : Template := parseTpl playCommandTplSrc
/-- `cmdCommandTpl`. -/
def cmdCommandTpl : Template := parseTpl cmdCommandTplSrc
/-- `collectCommandTpl`. -/
def collectCommandTpl : Template := parseTpl collectCommandTplSrc
/-- `parseCommandTpl`. -/
def parseCommandTpl : Template := parseTpl parseCommandTplSrc
/-- `scanCommandTpl`. -/
def scanCommandTpl : Template := parseTpl scanCommandTplSrc

/-! ## `runner/task.go`: script generation -/

/-- A Go `map[string]string` as a template value. -/
def mapValue (m : List (String × String)) : Value :=
  .map (m.map fun kv => (kv.1, .str kv.2))

/-- The state store as a template value. -/
def StateStore.toValue (s : StateStore) : Value :=
  .struct [("Backend", .str s.Backend), ("Address", .str s.Address),
    ("Scheme", .str s.Scheme), ("Path", .str s.Path)]

/-- A policy as a template value. -/
def TaskPolicy.toValue (p : TaskPolicy) : Value :=
  .struct [("PolicyId", .str p.PolicyId), ("Meta", p.Meta), ("Rego", .str p.Rego)]

/-- The environment descriptor as a template value. -/
def TaskEnv.toValue (e : TaskEnv) : Value :=
  .struct [("Id", .str e.Id), ("Workdir", .str e.Workdir), ("TfVarsFile", .str e.TfVarsFile),
    ("Playbook", .str e.Playbook), ("PlayVarsFile", .str e.PlayVarsFile),
    ("EnvironmentVars", mapValue e.EnvironmentVars),
    ("TerraformVars", mapValue e.TerraformVars),
    ("AnsibleVars", mapValue e.AnsibleVars)]

/-- The request as a template value (`"Req": t.req`). -/
def RunTaskReq.toValue (r : RunTaskReq) : Value :=
  .struct [("Env", r.Env.toValue), ("TaskId", .str r.TaskId), ("Step", .int r.Step),
    ("StepType", .str r.StepType), ("StepArgs", .list (r.StepArgs.map Value.str)),
    ("DockerImage", .str r.DockerImage), ("StateStore", r.StateStore.toValue),
    ("RepoAddress", .str r.RepoAddress), ("RepoRevision", .str r.RepoRevision),
    ("Timeout", .int r.Timeout), ("PrivateKey", .str r.PrivateKey),
    ("Policies", .list (r.Policies.map TaskPolicy.toValue)),
    ("StopOnViolation", .bool r.StopOnViolation)]

/-- `Task.executeTpl`: the rendered text, or the error of the execution. -/
def executeTpl (tpl : Template) (data : Value) : Except String String := tpl.execute data

/-- `Task.up2Workspace`: one `..` for the `code` directory, one more for every
element of `filepath.SplitList` of the working directory, then the name. -/
def up2Workspace (req : RunTaskReq) (name : String) : String :=
  let ups := [".."] ++ (SplitList req.Env.Workdir).map fun _ => ".."
  Join (ups ++ [name])

/-- `Task.stepInit`. -/
def stepInit (x : Externals) (req : RunTaskReq) : Except String String :=
  executeTpl initCommandTpl (.map [
    ("Req", req.toValue),
    ("PluginCachePath", .str x.ContainerPluginCachePath),
    ("IacTfFile", .str (up2Workspace req x.CloudIacTfFile))])

/-- `Task.stepPlan`. -/
def stepPlan (x : Externals) (req : RunTaskReq) : Except String String :=
  executeTpl planCommandTpl (.map [
    ("Req", req.toValue),
    ("TfVars", .str req.Env.TfVarsFile),
    ("TFPlanJsonFilePath", .str (up2Workspace req x.TFPlanJsonFile))])

/-- `Task.stepApply`. -/
def stepApply (req : RunTaskReq) : Except String String :=
  executeTpl applyCommandTpl (.map [("Req", req.toValue)])

/-- `Task.stepDestroy`. -/
def stepDestroy (req : RunTaskReq) : Except String String :=
  executeTpl applyCommandTpl (.map [("Req", req.toValue)])

/-- `Task.stepPlay`. -/
def stepPlay (x : Externals) (req : RunTaskReq) : Except String String :=
  executeTpl playCommandTpl (.map [
    ("Req", req.toValue),
    ("IacPlayVars", .str (up2Workspace req x.CloudIacPlayVars)),
    ("PrivateKeyPath", .str (up2Workspace req "ssh_key")),
    ("AnsibleStateAnalysis", .str (Join [x.ContainerAssetsDir, x.AnsibleStateAnalysisName]))])

/-- `Task.stepCommand` (`fmt.Sprintf("%v", c)` of a string is the string). -/
def stepCommand (req : RunTaskReq) : Except String String :=
  let commands := req.StepArgs.map fun c => c
  executeTpl cmdCommandTpl (.map [
    ("Req", req.toValue),
    ("Commands", .list (commands.map Value.str))])

/-- `Task.collectCommand`. -/
def collectCommand (x : Externals) (req : RunTaskReq) : Except String String :=
  executeTpl collectCommandTpl (.map [
    ("Req", req.toValue),
    ("TFStateJsonFilePath", .str (up2Workspace req x.TFStateJsonFile))])

/-- `Task.stepTfParse`. -/
def stepTfParse (x : Externals) (req : RunTaskReq) : Except String String :=
  executeTpl parseCommandTpl (.map [
    ("Req", req.toValue),
    ("IacPlayVars", .str (up2Workspace req x.CloudIacPlayVars)),
    ("TFScanJsonFilePath", .str (Join [x.ContainerAssetsDir, x.TerrascanJsonFile]))])

/-- `Task.stepTfScan`. -/
def stepTfScan (x : Externals) (req : RunTaskReq) : Except String String :=
  executeTpl scanCommandTpl (.map [
    ("Req", req.toValue),
    ("IacPlayVars", .str (up2Workspace req x.CloudIacPlayVars)),
    ("PoliciesDir", .str (up2Workspace req x.PoliciesDir)),
    ("TerrascanResultFile", .str (up2Workspace req x.TerrascanResultFile))])

/-! ## `runner/task.go`: workspace, step script, run -/

/-- `execTpl2File`: open the file, then execute the template into it. -/
def execTpl2File (tpl : Template) (data : Value) (savePath : String) (w : World) :
    Option String × World :=
  andThen (OpenFile savePath 0o644 w) fun w =>
    match tpl.execute data with
    | .error e => (some e, w)
    | .ok out => WriteString savePath out w

/-- `Task.genIacTfFile`; the request comes back with the state store address
filled in from the configuration when it was empty. -/
def genIacTfFile (x : Externals) (req : RunTaskReq) (workspace : String) (w : World) :
    (Option String × World) × RunTaskReq :=
  let req :=
    if req.StateStore.Address = "" then
      { req with StateStore := { req.StateStore with Address := x.consulAddress } }
    else req
  let ctx := Value.map [
    ("Workspace", .str workspace),
    ("PrivateKeyPath", .str (up2Workspace req "ssh_key")),
    ("State", req.StateStore.toValue)]
  (execTpl2File iacTerraformTpl ctx (Join [workspace, x.CloudIacTfFile]) w, req)

/-- `Task.genPlayVarsFile`. -/
def genPlayVarsFile (x : Externals) (req : RunTaskReq) (workspace : String) (w : World) :
    Option String × World :=
  andThen (OpenFile (Join [workspace, x.CloudIacPlayVars]) 0o644 w) fun w =>
    match x.yamlEncode req.Env.AnsibleVars with
    | .error e => (some e, w)
    | .ok out => WriteString (Join [workspace, x.CloudIacPlayVars]) out w

/-- The loop of `Task.genPolicyFiles`. -/
def genPolicyLoop (x : Externals) (workspace : String) :
    List TaskPolicy → World → Option String × World
  | [], w => (none, w)
  | policy :: rest, w =>
    andThen (MkdirAll (Join [workspace, x.PoliciesDir, policy.PolicyId]) 0o755 w) fun w =>
    andThen (WriteFile (Join [workspace, x.PoliciesDir, policy.PolicyId, "meta.json"])
      (x.jsonMarshal policy.Meta) 0o644 w) fun w =>
    andThen (WriteFile (Join [workspace, x.PoliciesDir, policy.PolicyId, "policy.rego"])
      policy.Rego 0o644 w) fun w =>
    genPolicyLoop x workspace rest w

/-- `Task.genPolicyFiles`. -/
def genPolicyFiles (x : Externals) (req : RunTaskReq) (workspace : String) (w : World) :
    Option String × World :=
  andThen (MkdirAll (Join [workspace, x.PoliciesDir]) 0o755 w) fun w =>
    genPolicyLoop x workspace req.Policies w

/-- Wrap the error of an action, if there is one. -/
def wrapErr (message : String) (r : Option String × World) : Option String × World :=
  (r.1.map fun e => Wrap e message, r.2)

/-- `Task.initWorkspace`.  The result is the returned pair (workspace, error),
the request as the call leaves it, and the world. -/
def initWorkspace (x : Externals) (req : RunTaskReq) (w : World) :
    (String × Option String) × RunTaskReq × World :=
  if HasPrefix req.Env.Workdir ".." then
    (("", some ("invalid workdir '" ++ req.Env.Workdir ++ "'")), req, w)
  else
    let workspace := x.GetTaskWorkspace req.Env.Id req.TaskId
    if req.Step ≠ 0 then ((workspace, none), req, w)
    else
      match PathExists workspace w with
      | (.error e, w) => ((workspace, some e), req, w)
      | (.ok ok, w) =>
        if ok && req.StepType = TaskStepInit then
          ((workspace, some ("workspace '" ++ workspace ++ "' is already exists")), req, w)
        else
          match MkdirAll workspace 0o755 w with
          | (some e, w) => ((workspace, some e), req, w)
          | (none, w) =>
            let privateKeyPath := Join [workspace, "ssh_key"]
            let keyContent := TrimSpace req.PrivateKey ++ "\n"
            match WriteFile privateKeyPath keyContent 0o600 w with
            | (some e, w) => ((workspace, some e), req, w)
            | (none, w) =>
              match genIacTfFile x req workspace w with
              | ((some e, w), req) => ((workspace, some (Wrap e "generate tf file")), req, w)
              | ((none, w), req) =>
                match genPlayVarsFile x req workspace w with
                | (some e, w) => ((workspace, some (Wrap e "generate play vars file")), req, w)
                | (none, w) =>
                  match genPolicyFiles x req workspace w with
                  | (some e, w) => ((workspace, some (Wrap e "generate policy files")), req, w)
                  | (none, w) => ((workspace, none), req, w)

/-- The `switch` of `Task.genStepScript`: the script of the step type, `none`
for a step type that has no case. -/
def stepScript (x : Externals) (req : RunTaskReq) : Option (Except String String) :=
  if req.StepType = TaskStepInit then some (stepInit x req)
  else if req.StepType = TaskStepPlan then some (stepPlan x req)
  else if req.StepType = TaskStepApply then some (stepApply req)
  else if req.StepType = TaskStepDestroy then some (stepDestroy req)
  else if req.StepType = TaskStepPlay then some (stepPlay x req)
  else if req.StepType = TaskStepCommand then some (stepCommand req)
  else if req.StepType = TaskStepCollect then some (collectCommand x req)
  else if req.StepType = TaskStepTfParse then some (stepTfParse x req)
  else if req.StepType = TaskStepTfScan then some (stepTfScan x req)
  else none

/-- `Task.genStepScript`. -/
def genStepScript (x : Externals) (req : RunTaskReq) (w : World) : Option String × World :=
  match stepScript x req with
  | none => (some ("unknown step type '" ++ req.StepType ++ "'"), w)
  | some (.error e) => (some e, w)
  | some (.ok command) =>
    let stepDir := x.GetTaskStepDir req.Env.Id req.TaskId req.Step
    andThen (MkdirAll stepDir 0o755 w) fun w =>
    let scriptPath := Join [stepDir, x.TaskStepScriptName]
    andThen (OpenFile scriptPath 0o644 w) fun w =>
    WriteString scriptPath command w

/-- `Task.decryptVariables`: every value is replaced by its decryption; the
first value that does not decrypt ends the loop with its error. -/
def decryptVariables (x : Externals) :
    List (String × String) → Except String (List (String × String))
  | [] => .ok []
  | (k, v) :: rest =>
    match x.DecryptSecretVar v with
    | .error e => .error e
    | .ok v1 =>
      match decryptVariables x rest with
      | .error e => .error e
      | .ok rest1 => .ok ((k, v1) :: rest1)

/-- The environment of the container command: the environment variables, the
plugin cache directory unless a variable sets it, the terraform variables. -/
def commandEnv (x : Externals) (req : RunTaskReq) : List String :=
  let tfPluginCacheDir := req.Env.EnvironmentVars.foldl
    (fun acc kv => if kv.1 = "TF_PLUGIN_CACHE_DIR" then kv.2 else acc) ""
  let env := req.Env.EnvironmentVars.map fun kv => kv.1 ++ "=" ++ kv.2
  let env :=
    if tfPluginCacheDir = "" then env ++ ["TF_PLUGIN_CACHE_DIR=" ++ x.ContainerPluginCachePath]
    else env
  env ++ req.Env.TerraformVars.map fun kv => "TF_VAR_" ++ kv.1 ++ "=" ++ kv.2

/-- The container command of `Task.Run`. -/
def runCommand (x : Externals) (req : RunTaskReq) (workspace : String) : Command :=
  let shellArgs :=
    if x.IsTrueStr ((req.Env.EnvironmentVars.lookup "CLOUDIAC_DEBUG").getD "") then " -x" else " "
  let shellCommand := "sh" ++ shellArgs ++ " "
    ++ Join [x.GetTaskStepDirName req.Step, x.TaskStepScriptName] ++ " >>"
    ++ Join [x.GetTaskStepDirName req.Step, x.TaskStepLogName] ++ " 2>&1"
  { Image := if req.DockerImage ≠ "" then req.DockerImage else x.DefaultImage
    Env := commandEnv x req
    Commands := ["sh", "-c", shellCommand]
    Timeout := req.Timeout
    Workdir := x.ContainerWorkspace
    HostWorkdir := workspace }

/-- The head of `Task.Run`: decrypt the three variable maps and, when it is not
empty, the private key; the request with the decrypted values, or the wrapped
error of the first decryption that fails. -/
def decryptRequest (x : Externals) (req : RunTaskReq) : Except String RunTaskReq :=
  match decryptVariables x req.Env.EnvironmentVars with
  | .error e => .error (Wrap e "decrypt variables")
  | .ok environmentVars =>
  match decryptVariables x req.Env.TerraformVars with
  | .error e => .error (Wrap e "decrypt variables")
  | .ok terraformVars =>
  match decryptVariables x req.Env.AnsibleVars with
  | .error e => .error (Wrap e "decrypt variables")
  | .ok ansibleVars =>
  match (if req.PrivateKey ≠ "" then x.DecryptSecretVar req.PrivateKey else .ok req.PrivateKey) with
  | .error e => .error (Wrap e "decrypt private key")
  | .ok privateKey =>
    .ok { req with
      Env := { req.Env with
        EnvironmentVars := environmentVars
        TerraformVars := terraformVars
        AnsibleVars := ansibleVars }
      PrivateKey := privateKey }

/-- `Task.Run`: the returned pair (container id, error) and the world. -/
def Run (x : Externals) (req : RunTaskReq) (w : World) : (String × Option String) × World :=
  match decryptRequest x req with
  | .error e => (("", some e), w)
  | .ok req =>
    match initWorkspace x req w with
    | ((_, some e), _, w) => (("", some (Wrap e "initial workspace")), w)
    | ((workspace, none), req, w) =>
      match genStepScript x req w with
      | (some e, w) => (("", some (Wrap e "generate step script")), w)
      | (none, w) =>
        match (runCommand x req workspace).Start w with
        | ((cid, some e), w) => ((cid, some e), w)
        | ((cid, none), w) =>
          let infoJson := x.MustJSON ⟨req.Env.Id, req.TaskId, req.Step, cid⟩
          let stepDir := x.GetTaskStepDir req.Env.Id req.TaskId req.Step
          ((cid, none), (WriteFile (Join [stepDir, x.TaskStepInfoFileName]) infoJson 0o644 w).2)

/-! ## Sample inputs -/

/-- Sample constants and helpers: the file names of the workspace layout, a
decryption that fails on the value `bad`. -/
def sampleExternals : Externals where
  CloudIacTfFile := "cloudiac.tf"
  CloudIacPlayVars := "cloudiac_play_vars.yml"
  PoliciesDir := "policies"
  TFPlanJsonFile := "tfplan.json"
  TFStateJsonFile := "tfstate.json"
  TerrascanJsonFile := "tfparse.json"
  TerrascanResultFile := "tfscan.json"
  TaskStepScriptName := "script.sh"
  TaskStepLogName := "step.log"
  TaskStepInfoFileName := "step-info.json"
  ContainerWorkspace := "/cloudiac/workspace"
  ContainerPluginCachePath := "/cloudiac/terraform/plugins"
  ContainerAssetsDir := "/cloudiac/assets"
  AnsibleStateAnalysisName := "terraform.py"
  GetTaskWorkspace := fun envId taskId => Join ["/var/cloudiac", envId, taskId]
  GetTaskStepDir := fun envId taskId step =>
    Join ["/var/cloudiac", envId, taskId, "step" ++ toString step]
  GetTaskStepDirName := fun step => "step" ++ toString step
  DecryptSecretVar := fun v => if v = "bad" then .error "cipher: message authentication failed" else .ok v
  IsTrueStr := fun v => v = "true"
  MustJSON := fun c => c.ContainerId
  jsonMarshal := fun v => v.print
  yamlEncode := fun m =>
    .ok (if m.isEmpty then "\x7b\x7d\n"
      else String.join (m.map fun kv => kv.1 ++ ": " ++ kv.2 ++ "\n"))
  consulAddress := "consul:8500"
  DefaultImage := "cloudiac/ct-worker"

/-- A sample request: step `stepType` with index `step` in working directory
`workdir`. -/
def sampleReq (workdir stepType : String) (step : Int) : RunTaskReq where
  Env := {
    Id := "env-1"
    Workdir := workdir
    TfVarsFile := "terraform.tfvars"
    Playbook := "site.yml"
    PlayVarsFile := ""
    EnvironmentVars := [("REGION", "eu")]
    TerraformVars := [("size", "2")]
    AnsibleVars := [] }
  TaskId := "task-1"
  Step := step
  StepType := stepType
  StepArgs := ["-lock=false"]
  DockerImage := ""
  StateStore := ⟨"consul", "", "http", "env-1/terraform.tfstate"⟩
  RepoAddress := "https://example.com/repo.git"
  RepoRevision := "abcdef1"
  Timeout := 600
  PrivateKey := "key"
  Policies := []
  StopOnViolation := false

/-- An empty world in which no call fails. -/
def emptyWorld : World := ⟨[], [], [], fun _ _ => none, fun _ _ => "c-1"⟩

/-- A world in which the workspace of the sample request exists, and no call
fails. -/
def existingWorld : World :=
  ⟨["/var", "/var/cloudiac", "/var/cloudiac/env-1", "/var/cloudiac/env-1/task-1"], [], [],
    fun _ _ => none, fun _ _ => "c-1"⟩

/-! ## Lemmas on strings and on template execution -/

theorem length_eq_zero_iff (s : String) : s.length = 0 ↔ s = "" := by
  constructor
  · intro h
    apply String.ext
    exact List.length_eq_zero.mp h
  · intro h
    subst h
    rfl

theorem HasPrefix_append (p rest : String) : HasPrefix (p ++ rest) p = true := by
  unfold HasPrefix
  rw [String.data_append, List.isPrefixOf_iff_prefix]
  exact List.prefix_append _ _

/-- A list that ends in one character is no suffix of a list that ends in another. -/
theorem not_suffix_of_last (c a : List Char) (p q : Char) (hpq : p ≠ q) :
    ¬ (c ++ [p]) <:+ (a ++ [q]) := by
  rintro ⟨t, ht⟩
  have h := congrArg List.getLast? ht
  rw [← List.append_assoc, List.getLast?_append, List.getLast?_append] at h
  simp at h
  exact hpq h

/-- A `range` over a list of strings whose body renders `f` of the element. -/
theorem rangeLoop_strs (body : Value → Value → Except String String) (f : String → String)
    (h : ∀ i s, body i (.str s) = .ok (f s)) (n : Nat) (xs : List String) :
    rangeLoop body n (xs.map Value.str) = .ok (String.join (xs.map f)) := by
  induction xs generalizing n with
  | nil => rfl
  | cons a rest ih =>
    have hj : String.join (f a :: rest.map f) = f a ++ String.join (rest.map f) := by
      apply String.ext
      rw [String.data_append, String.data_join, String.data_join]
      rfl
    rw [List.map_cons, List.map_cons, hj]
    simp only [rangeLoop, h, ih, bind, Except.bind]

theorem scanCommandTpl_eq : scanCommandTpl = some [
    .text "#!/bin/sh\ncd 'code/",
    .print (.field ["Req", "Env", "Workdir"]),
    .text "' && \\\nmkdir -p ",
    .print (.field ["PoliciesDir"]),
    .text " && \\\necho scanning policies && \\\nterrascan scan -p ",
    .print (.field ["PoliciesDir"]),
    .text " --show-passed --iac-type terraform -l debug -o json > ",
    .print (.field ["TerrascanResultFile"]),
    .text "\n",
    .ifThen (.not (.field ["Req", "StopOnViolation"]))
      [.text "RET=$? ; [ $RET -eq 3 ] && exit 0 || exit $RET "]] := by rfl

theorem parseCommandTpl_eq : parseCommandTpl = some [
    .text "#!/bin/sh\ncd 'code/",
    .print (.field ["Req", "Env", "Workdir"]),
    .text "' && terrascan scan --config-only  -d . -o json > ",
    .print (.field ["TerrascanJsonFile"]),
    .text "\n"] := by rfl

theorem planCommandTpl_eq : planCommandTpl = some [
    .text "#!/bin/sh\ncd 'code/",
    .print (.field ["Req", "Env", "Workdir"]),
    .text "' && \\\nterraform plan -input=false -out=_cloudiac.tfplan \\\n",
    .ifThen (.field ["TfVars"]) [.text "-var-file=", .print (.field ["TfVars"])],
    .text " \\\n",
    .range none (some "$arg") (.field ["Req", "StepArgs"])
      [.print (.var "$arg"), .text " "],
    .text "&& \\\nterraform show -no-color -json _cloudiac.tfplan >",
    .print (.field ["TFPlanJsonFilePath"]),
    .text "\n"] := by rfl

theorem applyCommandTpl_eq : applyCommandTpl = some [
    .text "#!/bin/sh\ncd 'code/",
    .print (.field ["Req", "Env", "Workdir"]),
    .text "' && \\\nterraform apply -input=false -auto-approve \\\n",
    .range none (some "$arg") (.field ["Req", "StepArgs"])
      [.print (.var "$arg"), .text " "],
    .text "_cloudiac.tfplan\n"] := by rfl

/-- The text of the apply script. -/
theorem stepApply_text (req : RunTaskReq) :
    stepApply req = .ok ("#!/bin/sh\ncd 'code/" ++ req.Env.Workdir
      ++ "' && \\\nterraform apply -input=false -auto-approve \\\n"
      ++ String.join (req.StepArgs.map fun a => a ++ " ") ++ "_cloudiac.tfplan\n") := by
  unfold stepApply executeTpl
  rw [applyCommandTpl_eq]
  have hr := rangeLoop_strs (fun _ v => .ok (v.print ++ " ")) (fun a => a ++ " ")
    (fun _ _ => rfl) 0 req.StepArgs
  simp [Template.execute, execNodes, execNode, evalExpr, evalPath, Value.getField, List.lookup,
    RunTaskReq.toValue, TaskEnv.toValue, Value.print, bind, Except.bind, Option.getD, bindVar,
    hr, String.append_assoc]

/-! ## The claims -/

/-- C4: a step is approved if and only if its status is not rejected and its
type is neither apply nor destroy or its approver identity is not empty; an
apply or destroy step with an empty approver is never approved, and no approved
apply or destroy step has an empty approver. -/
theorem IsApproved_iff (s : TaskStep) :
    (s.IsApproved = true ↔
      s.Status ≠ TaskStepRejected ∧
        ((s.Typ ≠ TaskStepApply ∧ s.Typ ≠ TaskStepDestroy) ∨ s.ApproverId ≠ "")) ∧
    (∀ (i : Int) (status : String),
      TaskStep.IsApproved ⟨TaskStepApply, i, status, ""⟩ = false ∧
      TaskStep.IsApproved ⟨TaskStepDestroy, i, status, ""⟩ = false) ∧
    ¬ (s.IsApproved = true ∧ (s.Typ = TaskStepApply ∨ s.Typ = TaskStepDestroy) ∧
        s.ApproverId = "") := by
  have key : ∀ t : TaskStep, t.IsApproved = true ↔
      t.Status ≠ TaskStepRejected ∧
        ((t.Typ ≠ TaskStepApply ∧ t.Typ ≠ TaskStepDestroy) ∨ t.ApproverId ≠ "") := by
    intro t
    unfold TaskStep.IsApproved StrInArray
    by_cases h1 : t.Status = TaskStepRejected
    · simp [h1]
    · by_cases h2 : t.ApproverId = ""
      · by_cases h3 : t.Typ = TaskStepApply
        · simp [h1, h2, h3]
        · by_cases h4 : t.Typ = TaskStepDestroy
          · simp [h1, h2, h4]
          · simp [h1, h2, h3, h4]
      · have h5 : t.ApproverId.length ≠ 0 := fun h => h2 ((length_eq_zero_iff _).1 h)
        simp [h1, h2, h5]
  refine ⟨key s, ?_, ?_⟩
  · intro i status
    constructor
    · cases hb : TaskStep.IsApproved ⟨TaskStepApply, i, status, ""⟩
      · rfl
      · have := (key _).1 hb
        simp at this
    · cases hb : TaskStep.IsApproved ⟨TaskStepDestroy, i, status, ""⟩
      · rfl
      · have := (key _).1 hb
        simp at this
  · rintro ⟨ha, ht, he⟩
    have := (key s).1 ha
    rcases this with ⟨_, ⟨h3, h4⟩ | h5⟩
    · rcases ht with ht | ht
      · exact h3 ht
      · exact h4 ht
    · exact h5 he

/-- C5: the scan script is the scan command followed, exactly when
`StopOnViolation` is false, by the clause
`RET=$? ; [ $RET -eq 3 ] && exit 0 || exit $RET` (and the blank that the
template leaves before its `end`): the script ends with that clause if and only
if `StopOnViolation` is false; with `StopOnViolation` true the script ends with
the scan command and its newline, nothing remaps the exit code. -/
theorem stepTfScan_text (x : Externals) (req : RunTaskReq) :
    ∃ script, stepTfScan x req = .ok script ∧
      script = "#!/bin/sh\ncd 'code/" ++ req.Env.Workdir ++ "' && \\\nmkdir -p "
        ++ up2Workspace req x.PoliciesDir
        ++ " && \\\necho scanning policies && \\\nterrascan scan -p "
        ++ up2Workspace req x.PoliciesDir
        ++ " --show-passed --iac-type terraform -l debug -o json > "
        ++ up2Workspace req x.TerrascanResultFile ++ "\n"
        ++ (if req.StopOnViolation = false
            then "RET=$? ; [ $RET -eq 3 ] && exit 0 || exit $RET" ++ " " else "") ∧
      (("RET=$? ; [ $RET -eq 3 ] && exit 0 || exit $RET" ++ " ").data <:+ script.data
        ↔ req.StopOnViolation = false) := by
  refine ⟨_, ?_, rfl, ?_⟩
  · unfold stepTfScan executeTpl
    rw [scanCommandTpl_eq]
    cases h : req.StopOnViolation <;>
    simp [Template.execute, execNodes, execNode, evalExpr, evalPath, Value.getField,
      List.lookup, RunTaskReq.toValue, TaskEnv.toValue, Value.print, Value.truth, bind,
      Except.bind, Option.getD, h, String.append_assoc]
  · cases h : req.StopOnViolation
    · simp only [if_true, String.data_append, iff_true]
      exact List.suffix_append _ _
    · simp only [Bool.true_eq_false, if_false, String.append_empty, iff_false]
      rw [String.data_append]
      exact not_suffix_of_last "RET=$? ; [ $RET -eq 3 ] && exit 0 || exit $RET".data _ ' ' '\n'
        (by decide)

/-- C6 (the code at every request): the parse script redirects the output of the
scanning tool to the text `<no value>`: the template prints the key
`TerrascanJsonFile`, which the data of `stepTfParse` does not hold. -/
theorem stepTfParse_text (x : Externals) (req : RunTaskReq) :
    stepTfParse x req = .ok ("#!/bin/sh\ncd 'code/" ++ req.Env.Workdir
      ++ "' && terrascan scan --config-only  -d . -o json > " ++ "<no value>" ++ "\n") := by
  unfold stepTfParse executeTpl
  rw [parseCommandTpl_eq]
  simp [Template.execute, execNodes, execNode, evalExpr, evalPath, Value.getField, List.lookup,
    RunTaskReq.toValue, TaskEnv.toValue, Value.print, bind, Except.bind, Option.getD,
    String.append_assoc]

/-- C9: the plan script holds the flag `-var-file=<TfVarsFile>` when the variable
file name is not empty and the template puts nothing in its place when it is
empty; in both cases the plan goes to `_cloudiac.tfplan` and
`terraform show -no-color -json` of it is redirected to
`up2Workspace(TFPlanJsonFile)`. -/
theorem stepPlan_text (x : Externals) (req : RunTaskReq) :
    stepPlan x req = .ok ("#!/bin/sh\ncd 'code/" ++ req.Env.Workdir
      ++ "' && \\\nterraform plan -input=false -out=_cloudiac.tfplan \\\n"
      ++ (if req.Env.TfVarsFile ≠ "" then "-var-file=" ++ req.Env.TfVarsFile else "")
      ++ " \\\n"
      ++ String.join (req.StepArgs.map fun a => a ++ " ")
      ++ "&& \\\nterraform show -no-color -json _cloudiac.tfplan >"
      ++ up2Workspace req x.TFPlanJsonFile ++ "\n") := by
  unfold stepPlan executeTpl
  rw [planCommandTpl_eq]
  have hr := rangeLoop_strs (fun _ v => .ok (v.print ++ " ")) (fun a => a ++ " ")
    (fun _ _ => rfl) 0 req.StepArgs
  by_cases h : req.Env.TfVarsFile = "" <;>
  simp [Template.execute, execNodes, execNode, evalExpr, evalPath, Value.getField, List.lookup,
    RunTaskReq.toValue, TaskEnv.toValue, Value.print, Value.truth, bind, Except.bind,
    Option.getD, bindVar, hr, h, String.append_assoc, -String.reduceAppend]

/-- C10: `stepDestroy` returns exactly what `stepApply` returns for the same
request, and that is a script (the apply template executes without error). -/
theorem stepDestroy_eq_stepApply (req : RunTaskReq) :
    stepDestroy req = stepApply req ∧ ∃ script, stepApply req = .ok script :=
  ⟨rfl, _, stepApply_text req⟩

/-! ## Lemmas on `Run` -/

theorem decryptVariables_error (x : Externals) (m : List (String × String))
    (h : ∃ kv ∈ m, ∃ e, x.DecryptSecretVar kv.2 = .error e) :
    ∃ e, decryptVariables x m = .error e := by
  induction m with
  | nil => simp at h
  | cons a rest ih =>
    obtain ⟨k, v⟩ := a
    unfold decryptVariables
    cases hv : x.DecryptSecretVar v with
    | error e => exact ⟨e, rfl⟩
    | ok v1 =>
      have hrest : ∃ kv ∈ rest, ∃ e, x.DecryptSecretVar kv.2 = .error e := by
        obtain ⟨kv, hmem, e, he⟩ := h
        rcases List.mem_cons.1 hmem with heq | hmem
        · subst heq
          rw [hv] at he
          cases he
        · exact ⟨kv, hmem, e, he⟩
      obtain ⟨e, he⟩ := ih hrest
      exact ⟨e, by simp [he]⟩

/-- Decryption leaves step type, step index and working directory as they are. -/
theorem decryptRequest_frame (x : Externals) (req req1 : RunTaskReq)
    (h : decryptRequest x req = .ok req1) :
    req1.StepType = req.StepType ∧ req1.Step = req.Step ∧
      req1.Env.Workdir = req.Env.Workdir := by
  unfold decryptRequest at h
  split at h
  · cases h
  · split at h
    · cases h
    · split at h
      · cases h
      · split at h
        · cases h
        · cases h
          exact ⟨rfl, rfl, rfl⟩

/-- Workspace initialisation leaves the step type of the request as it is. -/
theorem initWorkspace_StepType (x : Externals) (req : RunTaskReq) (w : World) :
    (initWorkspace x req w).2.1.StepType = req.StepType := by
  unfold initWorkspace
  have hg : ∀ ws w1, (genIacTfFile x req ws w1).2.StepType = req.StepType := by
    intro ws w1
    unfold genIacTfFile
    by_cases ha : req.StateStore.Address = "" <;> simp [ha]
  split
  · rfl
  · dsimp only
    split
    · rfl
    · split
      · rfl
      · split
        · rfl
        · split
          · rfl
          · split
            · rfl
            · split
              · rename_i h
                exact (congrArg (fun r => r.2.StepType) h).symm.trans (hg _ _)
              · rename_i h
                have := (congrArg (fun r => r.2.StepType) h).symm.trans (hg _ _)
                split
                · exact this
                · split
                  · exact this
                  · exact this

/-- A step type outside the nine cases of the `switch` has no script. -/
theorem stepScript_unknown (x : Externals) (req : RunTaskReq)
    (hu : req.StepType ∉ [TaskStepInit, TaskStepPlan, TaskStepApply, TaskStepDestroy,
      TaskStepPlay, TaskStepCommand, TaskStepCollect, TaskStepTfParse, TaskStepTfScan]) :
    stepScript x req = none := by
  simp only [List.mem_cons, List.mem_singleton, List.not_mem_nil, or_false, not_or] at hu
  obtain ⟨h1, h2, h3, h4, h5, h6, h7, h8, h9⟩ := hu
  simp [stepScript, h1, h2, h3, h4, h5, h6, h7, h8, h9]

/-! ## The claims on the workspace and on `Run` -/

/-- C1 (the code at working directories that reach the parent directory without
beginning with `..`): `./../x` and `a/../../x` both normalise to `../x`, and
`initWorkspace` accepts them: it returns the workspace path and no error. -/
theorem initWorkspace_accepts_inner_parent :
    Join ["./../x"] = "../x" ∧ Join ["a/../../x"] = "../x" ∧
    (initWorkspace sampleExternals (sampleReq "./../x" "plan" 1) emptyWorld).1
      = ("/var/cloudiac/env-1/task-1", none) ∧
    (initWorkspace sampleExternals (sampleReq "a/../../x" "plan" 1) emptyWorld).1
      = ("/var/cloudiac/env-1/task-1", none) := by
  decide

/-- C2: for a working directory that begins with `..`, `initWorkspace` returns
the error `invalid workdir '<workdir>'` (and the empty workspace path) and
leaves the world as it was: no call reaches the file system, whatever the step
index and step type. -/
theorem initWorkspace_rejects_parent_workdir (x : Externals) (req : RunTaskReq) (w : World)
    (rest : String) (h : req.Env.Workdir = ".." ++ rest) :
    initWorkspace x req w
      = (("", some ("invalid workdir '" ++ req.Env.Workdir ++ "'")), req, w) := by
  have hp : HasPrefix req.Env.Workdir ".." = true := by
    rw [h]
    exact HasPrefix_append ".." rest
  unfold initWorkspace
  rw [if_pos hp]

/-- C2 at the working directory `../secrets`, step `init` with index 0. -/
theorem initWorkspace_rejects_parent_workdir_witness :
    (sampleReq "../secrets" "init" 0).Env.Workdir = ".." ++ "/secrets" ∧
    initWorkspace sampleExternals (sampleReq "../secrets" "init" 0) emptyWorld
      = (("", some ("invalid workdir '" ++ (sampleReq "../secrets" "init" 0).Env.Workdir ++ "'")),
          sampleReq "../secrets" "init" 0, emptyWorld) :=
  ⟨by decide, initWorkspace_rejects_parent_workdir sampleExternals
    (sampleReq "../secrets" "init" 0) emptyWorld "/secrets" (by decide)⟩

/-- C3 (the code at a nested working directory): for the working directories
`a/b` and `a/b/c`, `up2Workspace` gives two `..` segments, not three and four:
the working directory is cut at colons, not at slashes. -/
theorem up2Workspace_nested_workdir :
    up2Workspace (sampleReq "a/b" "plan" 1) "ssh_key" = "../../ssh_key" ∧
    up2Workspace (sampleReq "a/b/c" "plan" 1) "ssh_key" = "../../ssh_key" ∧
    up2Workspace (sampleReq "a:b" "plan" 1) "ssh_key" = "../../../ssh_key" := by
  decide

/-- C7 (as stated, refuted): for the step type `bogus`, which is none of the
declared step types, the run at step index 0 fails with the `unknown step type`
error after the workspace directory and the key file have been created; and
with a private key that does not decrypt the run fails with the decryption
error, not with the `unknown step type` error. -/
theorem Run_unknown_step_type_after_workspace :
    "bogus" ∉ [TaskStepInit, TaskStepPlan, TaskStepApply, TaskStepDestroy, TaskStepPlay,
      TaskStepCommand, TaskStepCollect, TaskStepTfParse, TaskStepTfScan, TaskStepScanInit] ∧
    (Run sampleExternals (sampleReq "" "bogus" 0) emptyWorld).1
      = ("", some "generate step script: unknown step type 'bogus'") ∧
    "/var/cloudiac/env-1/task-1" ∈
      (Run sampleExternals (sampleReq "" "bogus" 0) emptyWorld).2.dirs ∧
    ("/var/cloudiac/env-1/task-1/ssh_key", "key\n") ∈
      (Run sampleExternals (sampleReq "" "bogus" 0) emptyWorld).2.files ∧
    (Run sampleExternals { sampleReq "" "bogus" 1 with PrivateKey := "bad" } emptyWorld).1
      = ("", some "decrypt private key: cipher: message authentication failed") := by
  decide

/-- C7 (amended): for a step type outside the nine cases of `genStepScript`,
once the variables and the private key decrypt and the workspace initialisation
succeeds, the run fails with `generate step script: unknown step type '<type>'`
and an empty container id, and the world is the one that the workspace
initialisation left: no step directory, no script, no container start.  When
the step index is not 0 and the working directory does not begin with `..`,
that is the world the run started in: no call reaches the file system. -/
theorem Run_unknown_step_type (x : Externals) (req req1 : RunTaskReq) (w : World)
    (hd : decryptRequest x req = .ok req1)
    (hu : req.StepType ∉ [TaskStepInit, TaskStepPlan, TaskStepApply, TaskStepDestroy,
      TaskStepPlay, TaskStepCommand, TaskStepCollect, TaskStepTfParse, TaskStepTfScan]) :
    (∀ ws req2 w1, initWorkspace x req1 w = ((ws, none), req2, w1) →
      Run x req w = (("", some (Wrap ("unknown step type '" ++ req.StepType ++ "'")
        "generate step script")), w1)) ∧
    (req.Step ≠ 0 → HasPrefix req.Env.Workdir ".." = false →
      Run x req w = (("", some (Wrap ("unknown step type '" ++ req.StepType ++ "'")
        "generate step script")), w)) := by
  obtain ⟨hty, hstep, hwd⟩ := decryptRequest_frame x req req1 hd
  have main : ∀ ws req2 w1, initWorkspace x req1 w = ((ws, none), req2, w1) →
      Run x req w = (("", some (Wrap ("unknown step type '" ++ req.StepType ++ "'")
        "generate step script")), w1) := by
    intro ws req2 w1 hi
    have h2 : req2.StepType = req.StepType := by
      have := initWorkspace_StepType x req1 w
      rw [hi] at this
      exact this.trans hty
    have hs : stepScript x req2 = none := stepScript_unknown x req2 (by rw [h2]; exact hu)
    unfold Run
    rw [hd]
    simp only [hi, genStepScript, hs, h2]
  refine ⟨main, ?_⟩
  intro h0 hp
  apply main (x.GetTaskWorkspace req1.Env.Id req1.TaskId) req1 w
  unfold initWorkspace
  rw [hwd, hstep, hp]
  simp [h0]

/-- C7 (amended) at the step type `bogus` with step index 1. -/
theorem Run_unknown_step_type_witness :
    Run sampleExternals (sampleReq "" "bogus" 1) emptyWorld
      = (("", some (Wrap ("unknown step type '" ++ (sampleReq "" "bogus" 1).StepType ++ "'")
        "generate step script")), emptyWorld) :=
  (Run_unknown_step_type sampleExternals (sampleReq "" "bogus" 1)
    (sampleReq "" "bogus" 1) emptyWorld (by rfl) (by decide)).2 (by decide) (by decide)

/-- C8: when a value of the environment, terraform or configuration-management
variables does not decrypt, or the private key is not empty and does not
decrypt, `Run` returns an error and the empty container id, and leaves the world
as it was: no workspace construction, no script generation, no container
start. -/
theorem Run_decrypt_failure (x : Externals) (req : RunTaskReq) (w : World)
    (h : (∃ kv ∈ req.Env.EnvironmentVars ++ req.Env.TerraformVars ++ req.Env.AnsibleVars,
            ∃ e, x.DecryptSecretVar kv.2 = .error e) ∨
         (req.PrivateKey ≠ "" ∧ ∃ e, x.DecryptSecretVar req.PrivateKey = .error e)) :
    ∃ e, Run x req w = (("", some e), w) := by
  have hd : ∃ e, decryptRequest x req = .error e := by
    unfold decryptRequest
    cases h1 : decryptVariables x req.Env.EnvironmentVars with
    | error e => exact ⟨_, rfl⟩
    | ok ev =>
      cases h2 : decryptVariables x req.Env.TerraformVars with
      | error e => exact ⟨_, rfl⟩
      | ok tv =>
        cases h3 : decryptVariables x req.Env.AnsibleVars with
        | error e => exact ⟨_, rfl⟩
        | ok av =>
          rcases h with ⟨kv, hmem, he⟩ | ⟨hk, e, he⟩
          · exfalso
            rcases List.mem_append.1 hmem with hmem | hmem
            · rcases List.mem_append.1 hmem with hmem | hmem
              · obtain ⟨e, hx⟩ := decryptVariables_error x _ ⟨kv, hmem, he⟩
                rw [h1] at hx
                cases hx
              · obtain ⟨e, hx⟩ := decryptVariables_error x _ ⟨kv, hmem, he⟩
                rw [h2] at hx
                cases hx
            · obtain ⟨e, hx⟩ := decryptVariables_error x _ ⟨kv, hmem, he⟩
              rw [h3] at hx
              cases hx
          · simp only [hk, ne_eq, not_false_eq_true, if_true, he]
            exact ⟨_, rfl⟩
  obtain ⟨e, he⟩ := hd
  exact ⟨e, by unfold Run; rw [he]⟩

/-- C8 at a private key that does not decrypt. -/
theorem Run_decrypt_failure_witness :
    ∃ e, Run sampleExternals
      { sampleReq "" "init" 0 with PrivateKey := "bad" } emptyWorld = (("", some e), emptyWorld) :=
  Run_decrypt_failure sampleExternals { sampleReq "" "init" 0 with PrivateKey := "bad" }
    emptyWorld (Or.inr ⟨by decide, _, rfl⟩)

/-! ## The claims on the task and step predicates -/

/-- C14: a task is exited (`Exited`, `IsExitedStatus`) if and only if its status
is one of failed, rejected, complete. -/
theorem Exited_iff (t : BaseTask) (status : String) :
    (t.IsExitedStatus status = true ↔
      status = TaskFailed ∨ status = TaskRejected ∨ status = TaskComplete) ∧
    (t.Exited = true ↔
      t.Status = TaskFailed ∨ t.Status = TaskRejected ∨ t.Status = TaskComplete) := by
  simp [BaseTask.Exited, BaseTask.IsExitedStatus, InArrayStr]

/-- C15: a task is started (`Started`, `IsStartedStatus`) if and only if its
status is not pending; the status approving counts as started. -/
theorem Started_iff (t : BaseTask) (status : String) :
    (t.IsStartedStatus status = true ↔ status ≠ TaskPending) ∧
    (t.Started = true ↔ t.Status ≠ TaskPending) ∧
    t.IsStartedStatus TaskApproving = true ∧
    BaseTask.Started { t with Status := TaskApproving } = true := by
  refine ⟨?_, ?_, ?_, ?_⟩
  · simp [BaseTask.IsStartedStatus, InArrayStr]
  · simp [BaseTask.Started, BaseTask.IsStartedStatus, InArrayStr]
  · rfl
  · rfl

/-- C16: a task is effectful (`IsEffectTask`, `IsEffectTaskType`) if and only if
its type is apply or destroy; a completed apply task is exited and effectful, a
completed plan task is not effectful. -/
theorem IsEffectTask_iff (t : BaseTask) (typ : String) :
    (t.IsEffectTaskType typ = true ↔ typ = TaskTypeApply ∨ typ = TaskTypeDestroy) ∧
    (t.IsEffectTask = true ↔ t.Typ = TaskTypeApply ∨ t.Typ = TaskTypeDestroy) ∧
    (BaseTask.Exited { t with Typ := TaskTypeApply, Status := TaskComplete } = true ∧
      BaseTask.IsEffectTask { t with Typ := TaskTypeApply, Status := TaskComplete } = true) ∧
    BaseTask.IsEffectTask { t with Typ := TaskTypePlan, Status := TaskComplete } = false := by
  refine ⟨?_, ?_, ⟨?_, ?_⟩, ?_⟩
  · simp [BaseTask.IsEffectTaskType, StrInArray]
  · simp [BaseTask.IsEffectTask, BaseTask.IsEffectTaskType, StrInArray]
  · rfl
  · rfl
  · rfl

/-- C17: a step is exited (`IsExited`) if and only if its status is one of
rejected, complete, failed, timeout. -/
theorem IsExited_iff (s : TaskStep) :
    s.IsExited = true ↔
      s.Status = TaskStepRejected ∨ s.Status = TaskStepComplete ∨
        s.Status = TaskStepFailed ∨ s.Status = TaskStepTimeout := by
  simp [TaskStep.IsExited, StrInArray]

/-- C18: a step is started (`IsStarted`) if and only if its status is neither
pending nor approving. -/
theorem IsStarted_iff (s : TaskStep) :
    s.IsStarted = true ↔ s.Status ≠ TaskStepPending ∧ s.Status ≠ TaskStepApproving := by
  simp [TaskStep.IsStarted, StrInArray]

/-! ## The text of every step script -/

theorem initCommandTpl_eq : initCommandTpl = some [
    .text "#!/bin/sh\ngit clone '",
    .print (.field ["Req", "RepoAddress"]),
    .text "' code && \\\ncd 'code/",
    .print (.field ["Req", "Env", "Workdir"]),
    .text "' && \\\ngit checkout -q '",
    .print (.field ["Req", "RepoRevision"]),
    .text "' && echo check out $(git rev-parse --short HEAD). && \\\nln -sf ",
    .print (.field ["IacTfFile"]),
    .text " . && \\\nterraform init -input=false",
    .range none (some "$arg") (.field ["Req", "StepArgs"])
      [.text " ", .print (.var "$arg")],
    .text "\n"] := by rfl

theorem playCommandTpl_eq : playCommandTpl = some [
    .text ("#!/bin/sh\nexport ANSIBLE_HOST_KEY_CHECKING=\"False\"\nexport ANSIBLE_TF_DIR=\".\"\n"
      ++ "export ANSIBLE_NOCOWS=\"1\"\n\ncd 'code/"),
    .print (.field ["Req", "Env", "Workdir"]),
    .text "' && ansible-playbook \\\n--inventory ",
    .print (.field ["AnsibleStateAnalysis"]),
    .text " \\\n--user \"root\" \\\n--private-key \"",
    .print (.field ["PrivateKeyPath"]),
    .text "\" \\\n--extra @",
    .print (.field ["IacPlayVars"]),
    .text " \\\n",
    .ifThen (.field ["Req", "Env", "PlayVarsFile"])
      [.text "--extra @", .print (.field ["Req", "Env", "PlayVarsFile"]), .text " \\\n"],
    .range none (some "$arg") (.field ["Req", "StepArgs"])
      [.print (.var "$arg"), .text " "],
    .text " \\\n",
    .print (.field ["Req", "Env", "Playbook"]),
    .text " \n"] := by rfl

theorem cmdCommandTpl_eq : cmdCommandTpl = some [
    .text "#!/bin/sh\n(test -d 'code/",
    .print (.field ["Req", "Env", "Workdir"]),
    .text "' && cd 'code/",
    .print (.field ["Req", "Env", "Workdir"]),
    .text "')\n",
    .range (some "$index") (some "$command") (.field ["Commands"])
      [.print (.var "$command"), .text " && \\\n"],
    .text "sleep 0\n"] := by rfl

theorem collectCommandTpl_eq : collectCommandTpl = some [
    .text "# state collect command\ncd 'code/",
    .print (.field ["Req", "Env", "Workdir"]),
    .text "' && \\\nterraform show -no-color -json >",
    .print (.field ["TFStateJsonFilePath"]),
    .text "\n"] := by rfl

/-- The text of the init script. -/
theorem stepInit_script (x : Externals) (req : RunTaskReq) :
    stepInit x req = .ok ("#!/bin/sh\ngit clone '" ++ req.RepoAddress
      ++ "' code && \\\ncd 'code/" ++ req.Env.Workdir
      ++ "' && \\\ngit checkout -q '" ++ req.RepoRevision
      ++ "' && echo check out $(git rev-parse --short HEAD). && \\\nln -sf "
      ++ up2Workspace req x.CloudIacTfFile
      ++ " . && \\\nterraform init -input=false"
      ++ String.join (req.StepArgs.map fun a => " " ++ a) ++ "\n") := by
  unfold stepInit executeTpl
  rw [initCommandTpl_eq]
  have hr := rangeLoop_strs (fun _ v => .ok (" " ++ v.print)) (fun a => " " ++ a)
    (fun _ _ => rfl) 0 req.StepArgs
  simp [Template.execute, execNodes, execNode, evalExpr, evalPath, Value.getField, List.lookup,
    RunTaskReq.toValue, TaskEnv.toValue, Value.print, bind, Except.bind, Option.getD, bindVar,
    hr, String.append_assoc, -String.reduceAppend]

/-- The text of the plan script. -/
theorem stepPlan_script (x : Externals) (req : RunTaskReq) :
    stepPlan x req = .ok ("#!/bin/sh\ncd 'code/" ++ req.Env.Workdir
      ++ "' && \\\nterraform plan -input=false -out=_cloudiac.tfplan \\\n"
      ++ (if req.Env.TfVarsFile ≠ "" then "-var-file=" ++ req.Env.TfVarsFile else "")
      ++ " \\\n"
      ++ String.join (req.StepArgs.map fun a => a ++ " ")
      ++ "&& \\\nterraform show -no-color -json _cloudiac.tfplan >"
      ++ up2Workspace req x.TFPlanJsonFile ++ "\n") := by
  unfold stepPlan executeTpl
  rw [planCommandTpl_eq]
  have hr := rangeLoop_strs (fun _ v => .ok (v.print ++ " ")) (fun a => a ++ " ")
    (fun _ _ => rfl) 0 req.StepArgs
  by_cases h : req.Env.TfVarsFile = "" <;>
  simp [Template.execute, execNodes, execNode, evalExpr, evalPath, Value.getField, List.lookup,
    RunTaskReq.toValue, TaskEnv.toValue, Value.print, Value.truth, bind, Except.bind,
    Option.getD, bindVar, hr, h, String.append_assoc, -String.reduceAppend]

/-- The text of the play script. -/
theorem stepPlay_script (x : Externals) (req : RunTaskReq) :
    stepPlay x req = .ok (("#!/bin/sh\nexport ANSIBLE_HOST_KEY_CHECKING=\"False\"\nexport ANSIBLE_TF_DIR=\".\"\n"
        ++ "export ANSIBLE_NOCOWS=\"1\"\n\ncd 'code/") ++ req.Env.Workdir
      ++ "' && ansible-playbook \\\n--inventory "
      ++ Join [x.ContainerAssetsDir, x.AnsibleStateAnalysisName]
      ++ " \\\n--user \"root\" \\\n--private-key \""
      ++ up2Workspace req "ssh_key"
      ++ "\" \\\n--extra @" ++ up2Workspace req x.CloudIacPlayVars ++ " \\\n"
      ++ (if req.Env.PlayVarsFile ≠ "" then "--extra @" ++ req.Env.PlayVarsFile ++ " \\\n" else "")
      ++ String.join (req.StepArgs.map fun a => a ++ " ")
      ++ " \\\n" ++ req.Env.Playbook ++ " \n") := by
  unfold stepPlay executeTpl
  rw [playCommandTpl_eq]
  have hr := rangeLoop_strs (fun _ v => .ok (v.print ++ " ")) (fun a => a ++ " ")
    (fun _ _ => rfl) 0 req.StepArgs
  by_cases h : req.Env.PlayVarsFile = "" <;>
  simp [Template.execute, execNodes, execNode, evalExpr, evalPath, Value.getField, List.lookup,
    RunTaskReq.toValue, TaskEnv.toValue, Value.print, Value.truth, bind, Except.bind,
    Option.getD, bindVar, hr, h, String.append_assoc, -String.reduceAppend]

/-- The text of the command script. -/
theorem stepCommand_script (req : RunTaskReq) :
    stepCommand req = .ok ("#!/bin/sh\n(test -d 'code/" ++ req.Env.Workdir
      ++ "' && cd 'code/" ++ req.Env.Workdir ++ "')\n"
      ++ String.join (req.StepArgs.map fun c => c ++ " && \\\n") ++ "sleep 0\n") := by
  unfold stepCommand executeTpl
  rw [cmdCommandTpl_eq]
  have hr := rangeLoop_strs (fun _ v => .ok (v.print ++ " && \\\n")) (fun c => c ++ " && \\\n")
    (fun _ _ => rfl) 0 req.StepArgs
  simp [Template.execute, execNodes, execNode, evalExpr, evalPath, Value.getField, List.lookup,
    RunTaskReq.toValue, TaskEnv.toValue, Value.print, bind, Except.bind, Option.getD, bindVar,
    hr, String.append_assoc, -String.reduceAppend]

/-- The text of the collect script. -/
theorem collectCommand_script (x : Externals) (req : RunTaskReq) :
    collectCommand x req = .ok ("# state collect command\ncd 'code/" ++ req.Env.Workdir
      ++ "' && \\\nterraform show -no-color -json >"
      ++ up2Workspace req x.TFStateJsonFile ++ "\n") := by
  unfold collectCommand executeTpl
  rw [collectCommandTpl_eq]
  simp [Template.execute, execNodes, execNode, evalExpr, evalPath, Value.getField, List.lookup,
    RunTaskReq.toValue, TaskEnv.toValue, Value.print, bind, Except.bind, Option.getD,
    String.append_assoc, -String.reduceAppend]

/-- The text of the parse script. -/
theorem stepTfParse_script (x : Externals) (req : RunTaskReq) :
    stepTfParse x req = .ok ("#!/bin/sh\ncd 'code/" ++ req.Env.Workdir
      ++ "' && terrascan scan --config-only  -d . -o json > " ++ "<no value>" ++ "\n") := by
  unfold stepTfParse executeTpl
  rw [parseCommandTpl_eq]
  simp [Template.execute, execNodes, execNode, evalExpr, evalPath, Value.getField, List.lookup,
    RunTaskReq.toValue, TaskEnv.toValue, Value.print, bind, Except.bind, Option.getD,
    String.append_assoc]

/-- The text of the scan script. -/
theorem stepTfScan_script (x : Externals) (req : RunTaskReq) :
    stepTfScan x req = .ok ("#!/bin/sh\ncd 'code/" ++ req.Env.Workdir ++ "' && \\\nmkdir -p "
      ++ up2Workspace req x.PoliciesDir
      ++ " && \\\necho scanning policies && \\\nterrascan scan -p "
      ++ up2Workspace req x.PoliciesDir
      ++ " --show-passed --iac-type terraform -l debug -o json > "
      ++ up2Workspace req x.TerrascanResultFile ++ "\n"
      ++ (if req.StopOnViolation = false
          then "RET=$? ; [ $RET -eq 3 ] && exit 0 || exit $RET" ++ " " else "")) := by
  unfold stepTfScan executeTpl
  rw [scanCommandTpl_eq]
  cases h : req.StopOnViolation <;>
  simp [Template.execute, execNodes, execNode, evalExpr, evalPath, Value.getField,
    List.lookup, RunTaskReq.toValue, TaskEnv.toValue, Value.print, Value.truth, bind,
    Except.bind, Option.getD, h, String.append_assoc]

/-- The text of the destroy script is that of the apply script. -/
theorem stepDestroy_script (req : RunTaskReq) :
    stepDestroy req = .ok ("#!/bin/sh\ncd 'code/" ++ req.Env.Workdir
      ++ "' && \\\nterraform apply -input=false -auto-approve \\\n"
      ++ String.join (req.StepArgs.map fun a => a ++ " ") ++ "_cloudiac.tfplan\n") :=
  stepApply_text req

/-- A known step type has a script: the `switch` reaches a template and the
template executes without error. -/
theorem stepScript_known (x : Externals) (req : RunTaskReq)
    (hk : req.StepType ∈ [TaskStepInit, TaskStepPlan, TaskStepApply, TaskStepDestroy,
      TaskStepPlay, TaskStepCommand, TaskStepCollect, TaskStepTfParse, TaskStepTfScan]) :
    ∃ s, stepScript x req = some (.ok s) := by
  unfold stepScript
  split_ifs with h1 h2 h3 h4 h5 h6 h7 h8 h9
  · exact ⟨_, congrArg some (stepInit_script x req)⟩
  · exact ⟨_, congrArg some (stepPlan_script x req)⟩
  · exact ⟨_, congrArg some (stepApply_text req)⟩
  · exact ⟨_, congrArg some (stepDestroy_script req)⟩
  · exact ⟨_, congrArg some (stepPlay_script x req)⟩
  · exact ⟨_, congrArg some (stepCommand_script req)⟩
  · exact ⟨_, congrArg some (collectCommand_script x req)⟩
  · exact ⟨_, congrArg some (stepTfParse_script x req)⟩
  · exact ⟨_, congrArg some (stepTfScan_script x req)⟩
  · exfalso
    simp only [List.mem_cons, List.mem_singleton, List.not_mem_nil, or_false] at hk
    rcases hk with h | h | h | h | h | h | h | h | h <;> contradiction

theorem lookup_setFile (files : List (String × String)) (path data : String) :
    (setFile files path data).lookup path = some data := by
  simp [setFile, List.lookup]

/-- What `genStepScript` leaves in the script file when it succeeds is the
script of the step type. -/
theorem genStepScript_file (x : Externals) (req : RunTaskReq) (w w1 : World)
    (h : genStepScript x req w = (none, w1)) :
    ∃ s, stepScript x req = some (.ok s) ∧
      w1.files.lookup
        (Join [x.GetTaskStepDir req.Env.Id req.TaskId req.Step, x.TaskStepScriptName]) = some s := by
  unfold genStepScript at h
  split at h
  · cases h
  · cases h
  · rename_i command hs
    refine ⟨command, hs, ?_⟩
    dsimp only at h
    generalize Join [x.GetTaskStepDir req.Env.Id req.TaskId req.Step, x.TaskStepScriptName] = p at h ⊢
    generalize x.GetTaskStepDir req.Env.Id req.TaskId req.Step = d at h
    unfold andThen at h
    split at h
    · cases h
    · rename_i w2 _
      dsimp only at h
      split at h
      · cases h
      · rename_i w3 _
        unfold WriteString at h
        split at h
        · cases h
        · cases h
          exact lookup_setFile _ _ _

/-! ## Lemmas on the workspace -/

theorem HasPrefix_iff (s p : String) : HasPrefix s p = true ↔ ∃ rest, s = p ++ rest := by
  constructor
  · intro h
    unfold HasPrefix at h
    rw [List.isPrefixOf_iff_prefix] at h
    obtain ⟨t, ht⟩ := h
    exact ⟨String.mk t, String.ext (by rw [String.data_append, ← ht])⟩
  · rintro ⟨rest, rfl⟩
    exact HasPrefix_append p rest

theorem HasPrefix_false (s p : String) (h : ∀ rest, s ≠ p ++ rest) : HasPrefix s p = false := by
  cases hp : HasPrefix s p
  · rfl
  · obtain ⟨rest, hr⟩ := (HasPrefix_iff s p).1 hp
    exact absurd hr (h rest)

theorem MkdirAll_trace (path : String) (perm : Nat) (w : World) :
    (MkdirAll path perm w).2.trace = w.trace ++ [.mkdirAll path perm] := by
  unfold MkdirAll
  split <;> rfl

theorem WriteFile_trace (path data : String) (perm : Nat) (w : World) :
    (WriteFile path data perm w).2.trace = w.trace ++ [.writeFile path data perm] := by
  unfold WriteFile
  split <;> rfl

theorem OpenFile_trace (path : String) (perm : Nat) (w : World) :
    (OpenFile path perm w).2.trace = w.trace ++ [.openFile path perm] := by
  unfold OpenFile
  split <;> rfl

theorem WriteString_trace (path data : String) (w : World) :
    (WriteString path data w).2.trace = w.trace ++ [.write path data] := by
  unfold WriteString
  split <;> rfl

/-- Sequencing keeps the trace of the first action as a prefix when the second
action extends the trace it is given. -/
theorem andThen_trace (r : Option String × World) (k : World → Option String × World)
    (hk : ∀ w, w.trace <+: (k w).2.trace) : r.2.trace <+: (andThen r k).2.trace := by
  obtain ⟨e, w⟩ := r
  cases e with
  | some e => exact List.prefix_refl _
  | none => exact hk w

theorem execTpl2File_trace (tpl : Template) (data : Value) (savePath : String) (w : World) :
    w.trace <+: (execTpl2File tpl data savePath w).2.trace := by
  unfold execTpl2File
  refine List.IsPrefix.trans ?_ (andThen_trace _ _ ?_)
  · rw [OpenFile_trace]
    exact List.prefix_append _ _
  · intro w1
    split
    · exact List.prefix_refl _
    · rw [WriteString_trace]
      exact List.prefix_append _ _

theorem genPlayVarsFile_trace (x : Externals) (req : RunTaskReq) (workspace : String)
    (w : World) : w.trace <+: (genPlayVarsFile x req workspace w).2.trace := by
  unfold genPlayVarsFile
  refine List.IsPrefix.trans ?_ (andThen_trace _ _ ?_)
  · rw [OpenFile_trace]
    exact List.prefix_append _ _
  · intro w1
    split
    · exact List.prefix_refl _
    · rw [WriteString_trace]
      exact List.prefix_append _ _

theorem genPolicyLoop_trace (x : Externals) (workspace : String) (ps : List TaskPolicy)
    (w : World) : w.trace <+: (genPolicyLoop x workspace ps w).2.trace := by
  induction ps generalizing w with
  | nil => exact List.prefix_refl _
  | cons p rest ih =>
    unfold genPolicyLoop
    refine List.IsPrefix.trans ?_ (andThen_trace _ _ ?_)
    · rw [MkdirAll_trace]
      exact List.prefix_append _ _
    · intro w1
      refine List.IsPrefix.trans ?_ (andThen_trace _ _ ?_)
      · rw [WriteFile_trace]
        exact List.prefix_append _ _
      · intro w2
        refine List.IsPrefix.trans ?_ (andThen_trace _ _ ?_)
        · rw [WriteFile_trace]
          exact List.prefix_append _ _
        · intro w3
          exact ih w3

theorem genPolicyFiles_trace (x : Externals) (req : RunTaskReq) (workspace : String)
    (w : World) : w.trace <+: (genPolicyFiles x req workspace w).2.trace := by
  unfold genPolicyFiles
  refine List.IsPrefix.trans ?_ (andThen_trace _ _ ?_)
  · rw [MkdirAll_trace]
    exact List.prefix_append _ _
  · intro w1
    exact genPolicyLoop_trace x workspace req.Policies w1

theorem genIacTfFile_trace (x : Externals) (req : RunTaskReq) (workspace : String)
    (w : World) : w.trace <+: (genIacTfFile x req workspace w).1.2.trace := by
  unfold genIacTfFile
  exact execTpl2File_trace _ _ _ _

/-- The existence check on a directory that exists, when the check itself does
not fail: the answer is yes and the call is recorded. -/
theorem PathExists_dir (path : String) (w : World) (hex : path ∈ w.dirs)
    (hstat : w.fault w.trace (.stat path) = none) :
    PathExists path w = (.ok true, w.log (.stat path)) := by
  unfold PathExists World.err
  rw [hstat]
  simp [hex]

/-- At step index 0 with an accepted working directory, when the existence check
answers and the step type is not init or the workspace is not there,
`initWorkspace` goes on to create the workspace directory: the trace continues
with that call. -/
theorem initWorkspace_proceeds (x : Externals) (req : RunTaskReq) (w w1 : World) (ok : Bool)
    (hstep : req.Step = 0) (hwd : HasPrefix req.Env.Workdir ".." = false)
    (hP : PathExists (x.GetTaskWorkspace req.Env.Id req.TaskId) w = (.ok ok, w1))
    (hgo : (ok && decide (req.StepType = TaskStepInit)) = false) :
    (w1.trace ++ [.mkdirAll (x.GetTaskWorkspace req.Env.Id req.TaskId) 0o755])
      <+: (initWorkspace x req w).2.2.trace := by
  unfold initWorkspace
  simp only [hwd, hstep, hP, hgo, ne_eq, not_true_eq_false, if_false, Bool.false_eq_true]
  have h1 := MkdirAll_trace (x.GetTaskWorkspace req.Env.Id req.TaskId) 0o755 w1
  split
  · rename_i e w2 hm
    rw [hm] at h1
    rw [← h1]
  · rename_i w2 hm
    rw [hm] at h1
    rw [← h1]
    have h2 := WriteFile_trace (Join [x.GetTaskWorkspace req.Env.Id req.TaskId, "ssh_key"])
      (TrimSpace req.PrivateKey ++ "\n") 0o600 w2
    split
    · rename_i e w3 hw
      rw [hw] at h2
      dsimp only at h2 ⊢
      rw [h2]
      exact List.prefix_append _ _
    · rename_i w3 hw
      rw [hw] at h2
      have p2 : w2.trace <+: w3.trace := by
        dsimp only at h2
        rw [h2]
        exact List.prefix_append _ _
      have h3 := genIacTfFile_trace x req (x.GetTaskWorkspace req.Env.Id req.TaskId) w3
      split
      · rename_i e w4 req4 hg
        rw [hg] at h3
        exact p2.trans h3
      · rename_i w4 req4 hg
        rw [hg] at h3
        have h4 := genPlayVarsFile_trace x req4 (x.GetTaskWorkspace req.Env.Id req.TaskId) w4
        split
        · rename_i e w5 hp
          rw [hp] at h4
          exact p2.trans (h3.trans h4)
        · rename_i w5 hp
          rw [hp] at h4
          have h5 := genPolicyFiles_trace x req4 (x.GetTaskWorkspace req.Env.Id req.TaskId) w5
          split
          · rename_i e w6 hq
            rw [hq] at h5
            exact p2.trans (h3.trans (h4.trans h5))
          · rename_i w6 hq
            rw [hq] at h5
            exact p2.trans (h3.trans (h4.trans h5))

theorem iacTerraformTpl_eq : iacTerraformTpl = some [
    .text " terraform \x7b\n  backend \"",
    .print (.field ["State", "Backend"]),
    .text "\" \x7b\n    address = \"",
    .print (.field ["State", "Address"]),
    .text "\"\n    scheme  = \"",
    .print (.field ["State", "Scheme"]),
    .text "\"\n    path    = \"",
    .print (.field ["State", "Path"]),
    .text ("\"\n    lock    = true\n    gzip    = false\n  \x7d\n\x7d\n\nlocals \x7b\n"
      ++ "\tcloudiac_ssh_user    = \"root\"\n\tcloudiac_private_key = \""),
    .print (.field ["PrivateKeyPath"]),
    .text "\"\n\x7d\n"] := by rfl

/-- The backend configuration template executes without error on the data of
`genIacTfFile`. -/
theorem iacTerraformTpl_ok (workspace key : String) (st : StateStore) :
    ∃ out, iacTerraformTpl.execute (.map [("Workspace", .str workspace),
      ("PrivateKeyPath", .str key), ("State", st.toValue)]) = .ok out := by
  rw [iacTerraformTpl_eq]
  simp [Template.execute, execNodes, execNode, evalExpr, evalPath, Value.getField, List.lookup,
    StateStore.toValue, Value.print, bind, Except.bind, Option.getD]

/-- In a world where no call fails the policy files are written without error,
and still no call fails afterwards. -/
theorem genPolicyLoop_ok (x : Externals) (workspace : String) (ps : List TaskPolicy)
    (w : World) (hf : ∀ t op, w.fault t op = none) :
    (genPolicyLoop x workspace ps w).1 = none := by
  induction ps generalizing w with
  | nil => rfl
  | cons p rest ih =>
    simp only [genPolicyLoop, andThen, MkdirAll, WriteFile, World.err, World.log, hf]
    exact ih _ (fun t op => hf t op)

theorem genIacTfFile_ok (x : Externals) (req : RunTaskReq) (workspace : String) (w : World)
    (hf : ∀ t op, w.fault t op = none) :
    ∃ w1 req1, genIacTfFile x req workspace w = ((none, w1), req1) ∧ w1.fault = w.fault ∧
      req1.Env = req.Env ∧ req1.Policies = req.Policies := by
  unfold genIacTfFile execTpl2File
  simp only [andThen, OpenFile, World.err, World.log, hf]
  split
  · rename_i e he
    obtain ⟨out, ho⟩ := iacTerraformTpl_ok workspace
      (up2Workspace (if req.StateStore.Address = "" then
        { req with StateStore := { req.StateStore with Address := x.consulAddress } }
        else req) "ssh_key")
      (if req.StateStore.Address = "" then
        { req with StateStore := { req.StateStore with Address := x.consulAddress } }
        else req).StateStore
    rw [ho] at he
    cases he
  · simp only [WriteString, World.err, World.log, hf]
    refine ⟨_, _, rfl, rfl, ?_, ?_⟩ <;> split <;> rfl

theorem genPlayVarsFile_ok (x : Externals) (req : RunTaskReq) (workspace : String) (w : World)
    (hf : ∀ t op, w.fault t op = none)
    (hy : ∃ y, x.yamlEncode req.Env.AnsibleVars = .ok y) :
    ∃ w1, genPlayVarsFile x req workspace w = (none, w1) ∧ w1.fault = w.fault := by
  obtain ⟨y, hy⟩ := hy
  unfold genPlayVarsFile
  simp only [andThen, OpenFile, WriteString, World.err, World.log, hf, hy]
  exact ⟨_, rfl, rfl⟩

theorem genPolicyFiles_ok (x : Externals) (req : RunTaskReq) (workspace : String) (w : World)
    (hf : ∀ t op, w.fault t op = none) :
    (genPolicyFiles x req workspace w).1 = none := by
  unfold genPolicyFiles
  simp only [andThen, MkdirAll, World.err, World.log, hf]
  exact genPolicyLoop_ok x workspace req.Policies _ (fun t op => hf t op)

/-- In a world where no call fails, at step index 0 with an accepted working
directory and a step type other than init, `initWorkspace` succeeds, provided
the variables encode. -/
theorem initWorkspace_ok (x : Externals) (req : RunTaskReq) (w : World)
    (hstep : req.Step = 0) (hwd : HasPrefix req.Env.Workdir ".." = false)
    (hf : ∀ t op, w.fault t op = none)
    (hy : ∃ y, x.yamlEncode req.Env.AnsibleVars = .ok y)
    (hgo : req.StepType ≠ TaskStepInit) :
    (initWorkspace x req w).1 = (x.GetTaskWorkspace req.Env.Id req.TaskId, none) := by
  unfold initWorkspace
  simp only [hwd, hstep, hgo, PathExists, MkdirAll, WriteFile, World.err, World.log, hf,
    ne_eq, not_true_eq_false, if_false, Bool.false_eq_true, decide_False, Bool.and_false]
  generalize hW : World.mk _ _ _ w.fault w.cid = w0
  have hf0 : ∀ t op, w0.fault t op = none := by
    subst hW
    exact hf
  obtain ⟨w1, req1, h1, hf1, henv, -⟩ := genIacTfFile_ok x req
    (x.GetTaskWorkspace req.Env.Id req.TaskId) w0 hf0
  rw [h1]
  dsimp only
  have hf1' : ∀ t op, w1.fault t op = none := fun t op => by rw [hf1]; exact hf0 t op
  obtain ⟨w2, h2, hf2⟩ := genPlayVarsFile_ok x req1
    (x.GetTaskWorkspace req.Env.Id req.TaskId) w1 hf1' (by rw [henv]; exact hy)
  rw [h2]
  dsimp only
  have hf2' : ∀ t op, w2.fault t op = none := fun t op => by rw [hf2]; exact hf1' t op
  have h3 := genPolicyFiles_ok x req1 (x.GetTaskWorkspace req.Env.Id req.TaskId) w2 hf2'
  split
  · rename_i e w3 hq
    rw [hq] at h3
    cases h3
  · rfl

/-! ## The claims on the script texts and on the workspace of later steps -/

/-- C11: the apply script is `#!/bin/sh`, `cd 'code/<workdir>' && \`,
`terraform apply -input=false -auto-approve \`, every step argument in its order
followed by one blank, then `_cloudiac.tfplan` and a newline; the plan script
writes its plan with `-out=` to the same file name. -/
theorem stepApply_exact (x : Externals) (req : RunTaskReq) :
    ∃ artifact, artifact = "_cloudiac.tfplan" ∧
      stepApply req = .ok ("#!/bin/sh\n" ++ "cd 'code/" ++ req.Env.Workdir ++ "' && \\\n"
        ++ "terraform apply -input=false -auto-approve \\\n"
        ++ String.join (req.StepArgs.map fun a => a ++ " ") ++ artifact ++ "\n") ∧
      stepPlan x req = .ok ("#!/bin/sh\n" ++ "cd 'code/" ++ req.Env.Workdir ++ "' && \\\n"
        ++ "terraform plan -input=false -out=" ++ artifact ++ " \\\n"
        ++ (if req.Env.TfVarsFile ≠ "" then "-var-file=" ++ req.Env.TfVarsFile else "")
        ++ " \\\n"
        ++ String.join (req.StepArgs.map fun a => a ++ " ")
        ++ "&& \\\nterraform show -no-color -json " ++ artifact ++ " >"
        ++ up2Workspace req x.TFPlanJsonFile ++ "\n") := by
  refine ⟨_, rfl, ?_, ?_⟩
  · rw [stepApply_text]
    simp [String.append_assoc]
  · rw [stepPlan_script]
    simp [String.append_assoc]

set_option maxRecDepth 8192 in
/-- C12: the init script clones the repository address into `code`, changes into
`code/<workdir>`, checks out the revision, links `up2Workspace(CloudIacTfFile)`
into the current directory and runs `terraform init -input=false` with every
step argument in its order, each stage chained to the next with `&&`; for the
repository `https://example.com/repo.git`, the revision `abcdef1` and the empty
working directory, with the backend file named `cloudiac.tf`, the link target is
`../cloudiac.tf`. -/
theorem stepInit_exact (x : Externals) (req : RunTaskReq) :
    stepInit x req = .ok ("#!/bin/sh\n"
      ++ "git clone '" ++ req.RepoAddress ++ "' code" ++ " && \\\n"
      ++ "cd 'code/" ++ req.Env.Workdir ++ "'" ++ " && \\\n"
      ++ "git checkout -q '" ++ req.RepoRevision ++ "'"
      ++ " && " ++ "echo check out $(git rev-parse --short HEAD)." ++ " && \\\n"
      ++ "ln -sf " ++ up2Workspace req x.CloudIacTfFile ++ " ." ++ " && \\\n"
      ++ "terraform init -input=false" ++ String.join (req.StepArgs.map fun a => " " ++ a)
      ++ "\n") ∧
    up2Workspace (sampleReq "" "init" 0) "cloudiac.tf" = "../cloudiac.tf" ∧
    stepInit sampleExternals (sampleReq "" "init" 0) = .ok ("#!/bin/sh\n"
      ++ "git clone 'https://example.com/repo.git' code && \\\n"
      ++ "cd 'code/' && \\\n"
      ++ "git checkout -q 'abcdef1' && echo check out $(git rev-parse --short HEAD). && \\\n"
      ++ "ln -sf ../cloudiac.tf . && \\\n"
      ++ "terraform init -input=false -lock=false\n") := by
  refine ⟨?_, by decide, by rfl⟩
  rw [stepInit_script]
  simp [String.append_assoc]

/-- C13: the script of a step is a function of the request, and of these fields
of it only: step type, working directory, step arguments, repository address and
revision, variable file names, playbook and the stop-on-violation flag.  Two
requests that agree on them (identical requests in particular) have the same
script, byte for byte, whatever the other fields, the variable maps and the
world are; for each of the nine step types the script exists, and it is what
`genStepScript` leaves in the script file. -/
theorem stepScript_deterministic (x : Externals) (a b : RunTaskReq)
    (h : a.StepType = b.StepType ∧ a.Env.Workdir = b.Env.Workdir ∧ a.StepArgs = b.StepArgs ∧
      a.RepoAddress = b.RepoAddress ∧ a.RepoRevision = b.RepoRevision ∧
      a.Env.TfVarsFile = b.Env.TfVarsFile ∧ a.Env.PlayVarsFile = b.Env.PlayVarsFile ∧
      a.Env.Playbook = b.Env.Playbook ∧ a.StopOnViolation = b.StopOnViolation) :
    stepScript x a = stepScript x b ∧
    (a.StepType ∈ [TaskStepInit, TaskStepPlan, TaskStepApply, TaskStepDestroy, TaskStepPlay,
        TaskStepCommand, TaskStepCollect, TaskStepTfParse, TaskStepTfScan] →
      ∃ s, stepScript x a = some (.ok s) ∧ stepScript x b = some (.ok s)) ∧
    (∀ w w1, genStepScript x a w = (none, w1) →
      ∃ s, stepScript x b = some (.ok s) ∧
        w1.files.lookup
          (Join [x.GetTaskStepDir a.Env.Id a.TaskId a.Step, x.TaskStepScriptName]) = some s) := by
  obtain ⟨hT, hW, hA, hR, hV, hF, hP, hB, hS⟩ := h
  have main : stepScript x a = stepScript x b := by
    simp only [stepScript, stepInit_script, stepPlan_script, stepApply_text, stepDestroy_script,
      stepPlay_script, stepCommand_script, collectCommand_script, stepTfParse_script,
      stepTfScan_script, up2Workspace, hT, hW, hA, hR, hV, hF, hP, hB, hS]
  refine ⟨main, ?_, ?_⟩
  · intro hk
    obtain ⟨s, hs⟩ := stepScript_known x a hk
    exact ⟨s, hs, main ▸ hs⟩
  · intro w w1 hg
    obtain ⟨s, hs, hl⟩ := genStepScript_file x a w w1 hg
    exact ⟨s, main ▸ hs, hl⟩

/-- C13 at two plan requests that differ in task, key, variables and timeout. -/
theorem stepScript_deterministic_witness :
    stepScript sampleExternals (sampleReq "a" "plan" 1)
      = stepScript sampleExternals
          { sampleReq "a" "plan" 1 with
            TaskId := "task-2", PrivateKey := "other", Timeout := 5,
            Env := { (sampleReq "a" "plan" 1).Env with
              EnvironmentVars := [("ZONE", "b"), ("REGION", "eu")] } } :=
  (stepScript_deterministic sampleExternals (sampleReq "a" "plan" 1)
    { sampleReq "a" "plan" 1 with
      TaskId := "task-2", PrivateKey := "other", Timeout := 5,
      Env := { (sampleReq "a" "plan" 1).Env with
        EnvironmentVars := [("ZONE", "b"), ("REGION", "eu")] } }
    ⟨rfl, rfl, rfl, rfl, rfl, rfl, rfl, rfl, rfl⟩).1

/-- C19: at a step index other than 0, for a working directory that does not
begin with `..`, `initWorkspace` returns `GetTaskWorkspace(envId, taskId)` and no
error, and leaves the request and the world as they were: no call reaches the
file system. -/
theorem initWorkspace_later_step (x : Externals) (req : RunTaskReq) (w : World)
    (hstep : req.Step ≠ 0) (hwd : ∀ rest, req.Env.Workdir ≠ ".." ++ rest) :
    initWorkspace x req w = ((x.GetTaskWorkspace req.Env.Id req.TaskId, none), req, w) := by
  unfold initWorkspace
  rw [HasPrefix_false _ _ hwd]
  simp [hstep]

/-- C19 at step index 2 of the sample request, in a world that holds the
workspace. -/
theorem initWorkspace_later_step_witness :
    initWorkspace sampleExternals (sampleReq "a" "apply" 2) existingWorld
      = (("/var/cloudiac/env-1/task-1", none), sampleReq "a" "apply" 2, existingWorld) :=
  initWorkspace_later_step sampleExternals (sampleReq "a" "apply" 2) existingWorld
    (by decide) (fun rest h => absurd ((HasPrefix_iff _ _).2 ⟨rest, h⟩) (by decide))

/-- C20: at step index 0, for a working directory that does not begin with `..`
and a workspace directory that exists (the existence check answering),
`initWorkspace` stops at the check with the error
`workspace '<path>' is already exists`, the check being the only call made (no
directory or file is created or written), if and only if the step type is init;
for every other step type it goes on to create the workspace directory, and
when no call fails and the variables encode it ends without error. -/
theorem initWorkspace_existing_workspace (x : Externals) (req : RunTaskReq) (w : World)
    (hstep : req.Step = 0) (hwd : ∀ rest, req.Env.Workdir ≠ ".." ++ rest)
    (hex : x.GetTaskWorkspace req.Env.Id req.TaskId ∈ w.dirs)
    (hstat : w.fault w.trace (.stat (x.GetTaskWorkspace req.Env.Id req.TaskId)) = none) :
    (initWorkspace x req w
        = ((x.GetTaskWorkspace req.Env.Id req.TaskId,
            some ("workspace '" ++ x.GetTaskWorkspace req.Env.Id req.TaskId
              ++ "' is already exists")),
          req, w.log (.stat (x.GetTaskWorkspace req.Env.Id req.TaskId)))
      ↔ req.StepType = TaskStepInit) ∧
    ((w.log (.stat (x.GetTaskWorkspace req.Env.Id req.TaskId))).dirs = w.dirs ∧
      (w.log (.stat (x.GetTaskWorkspace req.Env.Id req.TaskId))).files = w.files) ∧
    (req.StepType ≠ TaskStepInit →
      (w.trace ++ [.stat (x.GetTaskWorkspace req.Env.Id req.TaskId),
          .mkdirAll (x.GetTaskWorkspace req.Env.Id req.TaskId) 0o755])
        <+: (initWorkspace x req w).2.2.trace) ∧
    (req.StepType ≠ TaskStepInit → (∀ t op, w.fault t op = none) →
      (∃ y, x.yamlEncode req.Env.AnsibleVars = .ok y) →
      (initWorkspace x req w).1 = (x.GetTaskWorkspace req.Env.Id req.TaskId, none)) := by
  have hp := HasPrefix_false _ _ hwd
  have hP := PathExists_dir _ w hex hstat
  have hgo : req.StepType ≠ TaskStepInit →
      (w.trace ++ [.stat (x.GetTaskWorkspace req.Env.Id req.TaskId),
          .mkdirAll (x.GetTaskWorkspace req.Env.Id req.TaskId) 0o755])
        <+: (initWorkspace x req w).2.2.trace := by
    intro hne
    have := initWorkspace_proceeds x req w _ true hstep hp hP (by simp [hne])
    simpa [World.log, List.append_assoc] using this
  refine ⟨⟨?_, ?_⟩, ⟨rfl, rfl⟩, hgo, ?_⟩
  · intro heq
    by_contra hne
    have hle := (hgo hne).length_le
    rw [heq] at hle
    simp [World.log] at hle
  · intro hinit
    unfold initWorkspace
    simp [hp, hstep, hP, hinit]
  · intro hne hf hy
    exact initWorkspace_ok x req w hstep hp hf hy hne

/-- C20 at the sample request in a world that holds its workspace: the init
step stops at the check, the plan step initialises the workspace. -/
theorem initWorkspace_existing_workspace_witness :
    initWorkspace sampleExternals (sampleReq "" "init" 0) existingWorld
      = (("/var/cloudiac/env-1/task-1",
          some ("workspace '" ++ "/var/cloudiac/env-1/task-1" ++ "' is already exists")),
        sampleReq "" "init" 0, existingWorld.log (.stat "/var/cloudiac/env-1/task-1")) ∧
    (initWorkspace sampleExternals (sampleReq "" "plan" 0) existingWorld).1
      = ("/var/cloudiac/env-1/task-1", none) :=
  ⟨(initWorkspace_existing_workspace sampleExternals (sampleReq "" "init" 0) existingWorld rfl
      (fun rest h => absurd ((HasPrefix_iff _ _).2 ⟨rest, h⟩) (by decide))
      (by decide) rfl).1.2 rfl,
   (initWorkspace_existing_workspace sampleExternals (sampleReq "" "plan" 0) existingWorld rfl
      (fun rest h => absurd ((HasPrefix_iff _ _).2 ⟨rest, h⟩) (by decide))
      (by decide) rfl).2.2.2 (by decide) (fun _ _ => rfl) ⟨_, rfl⟩⟩

/-! ## The claims on the variables, the command script and the step types -/

/-- The loop keeps the length of the variable list. -/
theorem hideSensitive_length (vs : List VariableBody) :
    (hideSensitive vs).length = vs.length := by
  induction vs with
  | nil => rfl
  | cons v rest ih => simp [hideSensitive, ih]

/-- The loop changes every variable in its place: the value of a sensitive
variable becomes empty, nothing else changes. -/
theorem hideSensitive_getElem? (vs : List VariableBody) (i : Nat) :
    (hideSensitive vs)[i]? =
      vs[i]?.map fun v => { v with Value := if v.Sensitive then "" else v.Value } := by
  induction vs generalizing i with
  | nil => rfl
  | cons v rest ih =>
    cases i with
    | zero =>
      obtain ⟨sc, ty, nm, va, se, de⟩ := v
      cases se <;> simp [hideSensitive]
    | succ n =>
      simp only [hideSensitive, List.getElem?_cons_succ]
      exact ih n

/-- C21: after `HideSensitiveVariable` the variable list has the same length, and
at every position stands the variable that stood there before, with the same
scope, type, name, sensitivity flag and description; its value is the empty
string when it is flagged sensitive and the value it had otherwise. -/
theorem HideSensitiveVariable_spec (t : Task) :
    t.HideSensitiveVariable.Variables.length = t.Variables.length ∧
    ∀ i : Nat,
      (t.HideSensitiveVariable.Variables[i]?).map VariableBody.Scope
        = (t.Variables[i]?).map VariableBody.Scope ∧
      (t.HideSensitiveVariable.Variables[i]?).map VariableBody.Typ
        = (t.Variables[i]?).map VariableBody.Typ ∧
      (t.HideSensitiveVariable.Variables[i]?).map VariableBody.Name
        = (t.Variables[i]?).map VariableBody.Name ∧
      (t.HideSensitiveVariable.Variables[i]?).map VariableBody.Sensitive
        = (t.Variables[i]?).map VariableBody.Sensitive ∧
      (t.HideSensitiveVariable.Variables[i]?).map VariableBody.Description
        = (t.Variables[i]?).map VariableBody.Description ∧
      (t.HideSensitiveVariable.Variables[i]?).map VariableBody.Value
        = (t.Variables[i]?).map fun v => if v.Sensitive then "" else v.Value := by
  refine ⟨hideSensitive_length t.Variables, fun i => ?_⟩
  have h : t.HideSensitiveVariable.Variables[i]? =
      t.Variables[i]?.map fun v => { v with Value := if v.Sensitive then "" else v.Value } :=
    hideSensitive_getElem? t.Variables i
  rw [h]
  cases t.Variables[i]? <;> simp

/-- C22 (the code at every request): the command script is `#!/bin/sh`, the line
`(test -d 'code/<workdir>' && cd 'code/<workdir>')`, every step argument in its
order followed by ` && \` and a newline, then `sleep 0`; with no step argument
the guard line is followed by `sleep 0` at once.  The guard line is a
parenthesised list: the `cd` is part of it. -/
theorem stepCommand_exact (req : RunTaskReq) :
    stepCommand req = .ok ("#!/bin/sh\n"
      ++ "(" ++ "test -d 'code/" ++ req.Env.Workdir ++ "'" ++ " && "
        ++ "cd 'code/" ++ req.Env.Workdir ++ "'" ++ ")" ++ "\n"
      ++ String.join (req.StepArgs.map fun c => c ++ " && \\" ++ "\n")
      ++ "sleep 0" ++ "\n") ∧
    stepCommand { sampleReq "app" "command" 1 with StepArgs := [] }
      = .ok "#!/bin/sh\n(test -d 'code/app' && cd 'code/app')\nsleep 0\n" ∧
    stepCommand { sampleReq "app" "command" 1 with StepArgs := ["pwd", "ls"] }
      = .ok "#!/bin/sh\n(test -d 'code/app' && cd 'code/app')\npwd && \\\nls && \\\nsleep 0\n" := by
  refine ⟨?_, by rfl, by rfl⟩
  rw [stepCommand_script]
  simp [String.append_assoc]

/-- A known step type makes `genStepScript` create the step directory: the trace
continues with that call. -/
theorem genStepScript_known_trace (x : Externals) (req : RunTaskReq) (w : World)
    (hk : req.StepType ∈ [TaskStepInit, TaskStepPlan, TaskStepApply, TaskStepDestroy,
      TaskStepPlay, TaskStepCommand, TaskStepCollect, TaskStepTfParse, TaskStepTfScan]) :
    (w.trace ++ [.mkdirAll (x.GetTaskStepDir req.Env.Id req.TaskId req.Step) 0o755])
      <+: (genStepScript x req w).2.trace := by
  obtain ⟨s, hs⟩ := stepScript_known x req hk
  unfold genStepScript
  rw [hs]
  dsimp only
  rw [← MkdirAll_trace]
  apply andThen_trace
  intro w1
  refine List.IsPrefix.trans ?_ (andThen_trace _ _ ?_)
  · rw [OpenFile_trace]
    exact List.prefix_append _ _
  · intro w2
    rw [WriteString_trace]
    exact List.prefix_append _ _

/-- In a world where no call fails, `genStepScript` creates the step directory,
opens the script file and writes the script of the step type into it. -/
theorem genStepScript_ok (x : Externals) (req : RunTaskReq) (w : World) (s : String)
    (hs : stepScript x req = some (.ok s)) (hf : ∀ t op, w.fault t op = none) :
    (genStepScript x req w).1 = none ∧
    (genStepScript x req w).2.trace = w.trace ++
      [.mkdirAll (x.GetTaskStepDir req.Env.Id req.TaskId req.Step) 0o755,
       .openFile (Join [x.GetTaskStepDir req.Env.Id req.TaskId req.Step,
          x.TaskStepScriptName]) 0o644,
       .write (Join [x.GetTaskStepDir req.Env.Id req.TaskId req.Step,
          x.TaskStepScriptName]) s] ∧
    (genStepScript x req w).2.files = setFile (setFile w.files
        (Join [x.GetTaskStepDir req.Env.Id req.TaskId req.Step, x.TaskStepScriptName]) "")
      (Join [x.GetTaskStepDir req.Env.Id req.TaskId req.Step, x.TaskStepScriptName]) s := by
  unfold genStepScript
  rw [hs]
  simp [andThen, MkdirAll, OpenFile, WriteString, World.err, World.log, hf]

/-- C23: `genStepScript` renders a script for exactly the nine step types init,
plan, apply, destroy, play, command, collect, tfparse, tfscan: the `switch`
gives each of them the text of its own template (init the clone-and-init
script, plan the plan script, apply and destroy the apply script, play the
playbook script, command the command script, collect the state collection
script, tfparse the parse script, tfscan the scan script) and gives no script
to any other step type.  With a script, `genStepScript` first creates the step
directory; whenever it ends without error the script file holds that script,
and when no call fails it makes exactly three calls: create the step
directory, open the script file, write the script.  For a step type string
outside the nine, and only for such a one, it returns the error
`unknown step type '<type>'` and leaves the world as it was (no step
directory, no script file); the declared step type scaninit is one of these. -/
theorem genStepScript_step_types (x : Externals) (req : RunTaskReq) (w : World) :
    stepScript x req = (
      if req.StepType = TaskStepInit then
        some (.ok (
          "#!/bin/sh\ngit clone '" ++ req.RepoAddress
          ++ "' code && \\\ncd 'code/" ++ req.Env.Workdir
          ++ "' && \\\ngit checkout -q '" ++ req.RepoRevision
          ++ "' && echo check out $(git rev-parse --short HEAD). && \\\nln -sf "
          ++ up2Workspace req x.CloudIacTfFile
          ++ " . && \\\nterraform init -input=false"
          ++ String.join (req.StepArgs.map fun a => " " ++ a) ++ "\n"))
      else
      if req.StepType = TaskStepPlan then
        some (.ok (
          "#!/bin/sh\ncd 'code/" ++ req.Env.Workdir
          ++ "' && \\\nterraform plan -input=false -out=_cloudiac.tfplan \\\n"
          ++ (if req.Env.TfVarsFile ≠ "" then "-var-file=" ++ req.Env.TfVarsFile else "")
          ++ " \\\n"
          ++ String.join (req.StepArgs.map fun a => a ++ " ")
          ++ "&& \\\nterraform show -no-color -json _cloudiac.tfplan >"
          ++ up2Workspace req x.TFPlanJsonFile ++ "\n"))
      else
      if req.StepType = TaskStepApply then
        some (.ok (
          "#!/bin/sh\ncd 'code/" ++ req.Env.Workdir
          ++ "' && \\\nterraform apply -input=false -auto-approve \\\n"
          ++ String.join (req.StepArgs.map fun a => a ++ " ") ++ "_cloudiac.tfplan\n"))
      else
      if req.StepType = TaskStepDestroy then
        some (.ok (
          "#!/bin/sh\ncd 'code/" ++ req.Env.Workdir
          ++ "' && \\\nterraform apply -input=false -auto-approve \\\n"
          ++ String.join (req.StepArgs.map fun a => a ++ " ") ++ "_cloudiac.tfplan\n"))
      else
      if req.StepType = TaskStepPlay then
        some (.ok (
          ("#!/bin/sh\nexport ANSIBLE_HOST_KEY_CHECKING=\"False\"\nexport ANSIBLE_TF_DIR=\".\"\n"
          ++ "export ANSIBLE_NOCOWS=\"1\"\n\ncd 'code/") ++ req.Env.Workdir
          ++ "' && ansible-playbook \\\n--inventory "
          ++ Join [x.ContainerAssetsDir, x.AnsibleStateAnalysisName]
          ++ " \\\n--user \"root\" \\\n--private-key \""
          ++ up2Workspace req "ssh_key"
          ++ "\" \\\n--extra @" ++ up2Workspace req x.CloudIacPlayVars ++ " \\\n"
          ++ (if req.Env.PlayVarsFile ≠ "" then "--extra @" ++ req.Env.PlayVarsFile ++ " \\\n" else "")
          ++ String.join (req.StepArgs.map fun a => a ++ " ")
          ++ " \\\n" ++ req.Env.Playbook ++ " \n"))
      else
      if req.StepType = TaskStepCommand then
        some (.ok (
          "#!/bin/sh\n(test -d 'code/" ++ req.Env.Workdir
          ++ "' && cd 'code/" ++ req.Env.Workdir ++ "')\n"
          ++ String.join (req.StepArgs.map fun c => c ++ " && \\\n") ++ "sleep 0\n"))
      else
      if req.StepType = TaskStepCollect then
        some (.ok (
          "# state collect command\ncd 'code/" ++ req.Env.Workdir
          ++ "' && \\\nterraform show -no-color -json >"
          ++ up2Workspace req x.TFStateJsonFile ++ "\n"))
      else
      if req.StepType = TaskStepTfParse then
        some (.ok (
          "#!/bin/sh\ncd 'code/" ++ req.Env.Workdir
          ++ "' && terrascan scan --config-only  -d . -o json > " ++ "<no value>" ++ "\n"))
      else
      if req.StepType = TaskStepTfScan then
        some (.ok (
          "#!/bin/sh\ncd 'code/" ++ req.Env.Workdir ++ "' && \\\nmkdir -p "
          ++ up2Workspace req x.PoliciesDir
          ++ " && \\\necho scanning policies && \\\nterrascan scan -p "
          ++ up2Workspace req x.PoliciesDir
          ++ " --show-passed --iac-type terraform -l debug -o json > "
          ++ up2Workspace req x.TerrascanResultFile ++ "\n"
          ++ (if req.StopOnViolation = false
          then "RET=$? ; [ $RET -eq 3 ] && exit 0 || exit $RET" ++ " " else "")))
      else none) ∧
    ((∃ s, stepScript x req = some (.ok s)) ↔
      req.StepType ∈ [TaskStepInit, TaskStepPlan, TaskStepApply, TaskStepDestroy,
        TaskStepPlay, TaskStepCommand, TaskStepCollect, TaskStepTfParse, TaskStepTfScan]) ∧
    (∀ s, stepScript x req = some (.ok s) →
      (w.trace ++ [.mkdirAll (x.GetTaskStepDir req.Env.Id req.TaskId req.Step) 0o755])
        <+: (genStepScript x req w).2.trace ∧
      ((genStepScript x req w).1 = none →
        (genStepScript x req w).2.files.lookup
          (Join [x.GetTaskStepDir req.Env.Id req.TaskId req.Step, x.TaskStepScriptName])
          = some s) ∧
      ((∀ t op, w.fault t op = none) →
        (genStepScript x req w).1 = none ∧
        (genStepScript x req w).2.trace = w.trace ++
          [.mkdirAll (x.GetTaskStepDir req.Env.Id req.TaskId req.Step) 0o755,
           .openFile (Join [x.GetTaskStepDir req.Env.Id req.TaskId req.Step,
              x.TaskStepScriptName]) 0o644,
           .write (Join [x.GetTaskStepDir req.Env.Id req.TaskId req.Step,
              x.TaskStepScriptName]) s] ∧
        (genStepScript x req w).2.files = setFile (setFile w.files
            (Join [x.GetTaskStepDir req.Env.Id req.TaskId req.Step, x.TaskStepScriptName]) "")
          (Join [x.GetTaskStepDir req.Env.Id req.TaskId req.Step, x.TaskStepScriptName]) s)) ∧
    (genStepScript x req w = (some ("unknown step type '" ++ req.StepType ++ "'"), w) ↔
      req.StepType ∉ [TaskStepInit, TaskStepPlan, TaskStepApply, TaskStepDestroy,
        TaskStepPlay, TaskStepCommand, TaskStepCollect, TaskStepTfParse, TaskStepTfScan]) ∧
    TaskStepScanInit ∉ [TaskStepInit, TaskStepPlan, TaskStepApply, TaskStepDestroy,
        TaskStepPlay, TaskStepCommand, TaskStepCollect, TaskStepTfParse, TaskStepTfScan] ∧
    genStepScript x { req with StepType := TaskStepScanInit } w
      = (some "unknown step type 'scaninit'", w) := by
  have hunk : ∀ r : RunTaskReq,
      r.StepType ∉ [TaskStepInit, TaskStepPlan, TaskStepApply, TaskStepDestroy,
        TaskStepPlay, TaskStepCommand, TaskStepCollect, TaskStepTfParse, TaskStepTfScan] →
      genStepScript x r w = (some ("unknown step type '" ++ r.StepType ++ "'"), w) := by
    intro r hu
    unfold genStepScript
    rw [stepScript_unknown x r hu]
  have hscan : TaskStepScanInit ∉ [TaskStepInit, TaskStepPlan, TaskStepApply, TaskStepDestroy,
        TaskStepPlay, TaskStepCommand, TaskStepCollect, TaskStepTfParse, TaskStepTfScan] := by
    decide
  have hex : (∃ s, stepScript x req = some (.ok s)) →
      req.StepType ∈ [TaskStepInit, TaskStepPlan, TaskStepApply, TaskStepDestroy,
        TaskStepPlay, TaskStepCommand, TaskStepCollect, TaskStepTfParse, TaskStepTfScan] := by
    rintro ⟨s, hs⟩
    by_contra hu
    rw [stepScript_unknown x req hu] at hs
    cases hs
  refine ⟨?_, ⟨hex, stepScript_known x req⟩, ?_, ⟨?_, hunk req⟩, hscan, ?_⟩
  · simp only [stepScript, stepInit_script, stepPlan_script, stepApply_text, stepDestroy_script,
      stepPlay_script, stepCommand_script, collectCommand_script, stepTfParse_script,
      stepTfScan_script]
  · intro s hs
    refine ⟨genStepScript_known_trace x req w (hex ⟨s, hs⟩), ?_, genStepScript_ok x req w s hs⟩
    intro hnone
    obtain ⟨s1, hs1, hl⟩ := genStepScript_file x req w (genStepScript x req w).2
      (Prod.ext hnone rfl)
    rw [hs] at hs1
    cases hs1
    exact hl
  · intro heq hk
    have hle := (genStepScript_known_trace x req w hk).length_le
    rw [heq] at hle
    simp at hle
  · exact hunk { req with StepType := TaskStepScanInit } hscan

set_option maxRecDepth 8192 in
/-- C23 at the plan step with index 1 of the sample request, in a world where no
call fails: the step directory is created and the plan script is written to
the script file. -/
theorem genStepScript_step_types_witness :
    (genStepScript sampleExternals (sampleReq "" "plan" 1) emptyWorld).1 = none ∧
    (genStepScript sampleExternals (sampleReq "" "plan" 1) emptyWorld).2.trace =
      emptyWorld.trace ++
        [.mkdirAll (sampleExternals.GetTaskStepDir (sampleReq "" "plan" 1).Env.Id
            (sampleReq "" "plan" 1).TaskId (sampleReq "" "plan" 1).Step) 0o755,
         .openFile (Join [sampleExternals.GetTaskStepDir (sampleReq "" "plan" 1).Env.Id
            (sampleReq "" "plan" 1).TaskId (sampleReq "" "plan" 1).Step,
            sampleExternals.TaskStepScriptName]) 0o644,
         .write (Join [sampleExternals.GetTaskStepDir (sampleReq "" "plan" 1).Env.Id
            (sampleReq "" "plan" 1).TaskId (sampleReq "" "plan" 1).Step,
            sampleExternals.TaskStepScriptName])
          ("#!/bin/sh\ncd 'code/' && \\\nterraform plan -input=false -out=_cloudiac.tfplan \\\n"
            ++ "-var-file=terraform.tfvars \\\n-lock=false && \\\n"
            ++ "terraform show -no-color -json _cloudiac.tfplan >../tfplan.json\n")] ∧
    (genStepScript sampleExternals (sampleReq "" "plan" 1) emptyWorld).2.files =
      setFile (setFile emptyWorld.files
          (Join [sampleExternals.GetTaskStepDir (sampleReq "" "plan" 1).Env.Id
            (sampleReq "" "plan" 1).TaskId (sampleReq "" "plan" 1).Step,
            sampleExternals.TaskStepScriptName]) "")
        (Join [sampleExternals.GetTaskStepDir (sampleReq "" "plan" 1).Env.Id
            (sampleReq "" "plan" 1).TaskId (sampleReq "" "plan" 1).Step,
            sampleExternals.TaskStepScriptName])
        ("#!/bin/sh\ncd 'code/' && \\\nterraform plan -input=false -out=_cloudiac.tfplan \\\n"
          ++ "-var-file=terraform.tfvars \\\n-lock=false && \\\n"
          ++ "terraform show -no-color -json _cloudiac.tfplan >../tfplan.json\n") :=
  ((genStepScript_step_types sampleExternals (sampleReq "" "plan" 1) emptyWorld).2.2.1
    _ (by rfl)).2.2 (fun _ _ => rfl)

end CloudIaC
